import Mathlib

/-!
Verification of the semantiaz semantic-model core
(`src/semantiaz/models/semantic_model.py` and
`src/semantiaz/converters/rdf_semantic_converter.py`) against its
natural-language specification.

Python entities (pydantic models) are embedded as Lean structures; the
document trees produced by `model_dump(exclude_none=True)` and consumed by
`model_validate` are embedded as an inductive `Value` type.  The text layers
(`yaml.dump`/`yaml.safe_load`, `json.dumps`/`json.loads`) are lossless on
these trees and are modelled as the identity on `Value`.
-/

namespace Semantiaz

/-- A document value: the nested mapping/sequence/scalar tree produced by
`yaml.safe_load` / `json.loads` and by pydantic's `model_dump`.  Object
fields keep insertion order, as Python dicts do. -/
inductive Value where
  | null : Value
  | str : String → Value
  | int : Int → Value
  | bool : Bool → Value
  | list : List Value → Value
  | obj : List (String × Value) → Value

/-- Whether a document value is the null scalar. -/
def Value.isNull : Value → Bool
  | .null => true
  | _ => false

/-- Key lookup in a document object, first match wins (Python dicts have
unique keys, so this is exact). -/
def fieldsGet : List (String × Value) → String → Option Value
  | [], _ => none
  | (k, v) :: fs, key => if k = key then some v else fieldsGet fs key

/-- Result of pydantic validation: either the validated entity or an error
message (`ValidationError` or a propagated `VerifiedQueryError`). -/
abbrev P (α : Type) := Except String α

/-- Required `str` field: missing keys, nulls and non-strings are rejected. -/
def getStr (fs : List (String × Value)) (k : String) : P String :=
  match fieldsGet fs k with
  | some (.str s) => .ok s
  | _ => .error ("field required or not a string: " ++ k)

/-- Optional `str | None` field with default `None`. -/
def getOptStr (fs : List (String × Value)) (k : String) : P (Option String) :=
  match fieldsGet fs k with
  | none => .ok none
  | some .null => .ok none
  | some (.str s) => .ok (some s)
  | some _ => .error ("not a string: " ++ k)

/-- Optional `int | None` field with default `None`. -/
def getOptInt (fs : List (String × Value)) (k : String) : P (Option Int) :=
  match fieldsGet fs k with
  | none => .ok none
  | some .null => .ok none
  | some (.int n) => .ok (some n)
  | some _ => .error ("not an int: " ++ k)

/-- `list[str]` field with default `[]`. -/
def getStrList (fs : List (String × Value)) (k : String) : P (List String) :=
  match fieldsGet fs k with
  | none => .ok []
  | some (.list xs) =>
    let rec go : List Value → P (List String)
      | [] => .ok []
      | .str s :: rest =>
        match go rest with
        | .ok ss => .ok (s :: ss)
        | .error e => .error e
      | _ :: _ => .error ("not a string list: " ++ k)
    go xs
  | some _ => .error ("not a list: " ++ k)

/-- `bool` field with default `d`. -/
def getBoolD (fs : List (String × Value)) (k : String) (d : Bool) : P Bool :=
  match fieldsGet fs k with
  | none => .ok d
  | some (.bool b) => .ok b
  | some _ => .error ("not a bool: " ++ k)

/-- Element-wise parsing of a document sequence. -/
def parseListWith (p : Value → P α) : List Value → P (List α)
  | [] => .ok []
  | v :: vs =>
    match p v, parseListWith p vs with
    | .ok a, .ok as => .ok (a :: as)
    | .error e, _ => .error e
    | _, .error e => .error e

/-- `list[T]` field with default `[]`, elements parsed with `p`. -/
def getListOf (fs : List (String × Value)) (k : String) (p : Value → P α) : P (List α) :=
  match fieldsGet fs k with
  | none => .ok []
  | some (.list xs) => parseListWith p xs
  | some _ => .error ("not a list: " ++ k)

/-- `list[T] | None` field with default `None`. -/
def getOptListOf (fs : List (String × Value)) (k : String) (p : Value → P α) :
    P (Option (List α)) :=
  match fieldsGet fs k with
  | none => .ok none
  | some .null => .ok none
  | some (.list xs) =>
    match parseListWith p xs with
    | .ok as => .ok (some as)
    | .error e => .error e
  | some _ => .error ("not a list: " ++ k)

/-- `T | None` nested-model field with default `None`. -/
def getOptObj (fs : List (String × Value)) (k : String) (p : Value → P α) :
    P (Option α) :=
  match fieldsGet fs k with
  | none => .ok none
  | some v =>
    if v.isNull then .ok none
    else
      match p v with
      | .ok a => .ok (some a)
      | .error e => .error e

/-- Serialization of an optional string field under `exclude_none=True`:
a `None` value is omitted entirely, never emitted as null. -/
def optStrField (k : String) (o : Option String) : List (String × Value) :=
  match o with
  | none => []
  | some s => [(k, .str s)]

/-- Serialization of an optional int field under `exclude_none=True`. -/
def optIntField (k : String) (o : Option Int) : List (String × Value) :=
  match o with
  | none => []
  | some n => [(k, .int n)]

/-- Serialization of an optional nested-model field under `exclude_none=True`. -/
def optObjField (k : String) (o : Option α) (d : α → Value) : List (String × Value) :=
  match o with
  | none => []
  | some x => [(k, d x)]

/-- Serialization of an optional list field under `exclude_none=True`. -/
def optListField (k : String) (o : Option (List α)) (d : α → Value) : List (String × Value) :=
  match o with
  | none => []
  | some xs => [(k, .list (xs.map d))]

/-! ### The entity schema of `src/semantiaz/models/semantic_model.py`

Namespace `SM` contains one Lean structure per pydantic model of that file,
field for field and in declaration order.  `Literal[...]` fields are embedded
as finite inductive types (pydantic guarantees a constructed instance holds
one of the allowed literals); the raw-string checks performed at construction
time appear in the builder and parser embeddings below. -/

namespace SM

/-- `CortexSearchService`: configuration for search integration. -/
structure CortexSearchService where
  service : Option String
  literal_column : Option String
  database : Option String
  schema : Option String
deriving Repr, DecidableEq

/-- `Dimension`: categorical attribute of a logical table. -/
structure Dimension where
  name : String
  synonyms : List String
  description : Option String
  expr : Option String
  data_type : Option String
  unique : Bool
  cortex_search_service : Option CortexSearchService
  is_enum : Bool
deriving Repr, DecidableEq

/-- `TimeDimensions`: temporal attribute.  The source declares
`data_type: int | float | None`; the `float` alternative is not modelled
(floating point is out of scope and no claim touches it). -/
structure TimeDimensions where
  name : String
  synonyms : List String
  description : Option String
  expr : Option String
  data_type : Option Int
  unique : Bool
deriving Repr, DecidableEq

/-- The `Literal["public_access", "private_access"]` access modifier. -/
inductive AccessModifier where
  | public_access : AccessModifier
  | private_access : AccessModifier
deriving Repr, DecidableEq

/-- `Fact`: row-level numeric measure. -/
structure Fact where
  name : String
  synonyms : List String
  description : Option String
  access_modifier : AccessModifier
  expr : Option String
  data_type : Option String
deriving Repr, DecidableEq

/-- `Metric`: named (or unnamed) KPI expression. -/
structure Metric where
  name : Option String
  synonyms : List String
  description : Option String
  access_modifier : AccessModifier
  expr : Option String
deriving Repr, DecidableEq

/-- `Filter`: named filter condition. -/
structure Filter where
  name : String
  synonyms : List String
  description : Option String
  comments : List String
  expr : Option String
deriving Repr, DecidableEq

/-- `RelationshipColumn`: one join-column pair. -/
structure RelationshipColumn where
  left_column : Option String
  right_column : Option String
deriving Repr, DecidableEq

/-- The `Literal["left_outer", "inner"]` join type. -/
inductive JoinType where
  | left_outer : JoinType
  | inner : JoinType
deriving Repr, DecidableEq

/-- The `Literal["one_to_one", "many_to_one"]` relationship type. -/
inductive RelationshipType where
  | one_to_one : RelationshipType
  | many_to_one : RelationshipType
deriving Repr, DecidableEq

/-- `Relationship`: named join predicate between two tables. -/
structure Relationship where
  name : String
  left_table : String
  right_table : String
  relationship_columns : List RelationshipColumn
  join_type : JoinType
  relationship_type : RelationshipType
deriving Repr, DecidableEq

/-- `VerifiedQuery`: pre-validated SQL paired with its question. -/
structure VerifiedQuery where
  name : Option String
  question : Option String
  verified_at : Option Int
  verified_by : Option String
  use_as_onboarding_question : Bool
  sql : Option String
deriving Repr, DecidableEq

/-- `ModuleCustomInstructions`: the two instruction blocks.  Both fields are
declared without a default in the source, so they are required on input
(though their values may be null). -/
structure ModuleCustomInstructions where
  sql_generation : Option (List String)
  question_categorization : Option (List String)
deriving Repr, DecidableEq

/-- `Columns`: ordered collection of column names (primary keys). -/
structure Columns where
  columns : List String
deriving Repr, DecidableEq

/-- `BaseTable`: physical table locator, all parts optional. -/
structure BaseTable where
  database : Option String
  schema : Option String
  table : Option String
deriving Repr, DecidableEq

/-- `Table`: a logical table of the semantic model. -/
structure Table where
  name : String
  description : Option String
  base_table : Option BaseTable
  primary_key : Option Columns
  dimensions : List Dimension
  time_dimensions : Option (List TimeDimensions)
  facts : Option (List Fact)
  metrics : Option (List Metric)
  filters : Option (List Filter)
deriving Repr, DecidableEq

/-- `SemanticModel`: the root aggregate. -/
structure SemanticModel where
  name : String
  description : Option String
  comments : Option String
  tables : List Table
  relationships : List Relationship
  metrics : List Metric
  verified_queries : List VerifiedQuery
  custom_instructions : Option ModuleCustomInstructions
deriving Repr, DecidableEq

/-- `SemanticModel.add_table`: scan for an existing table of the same name;
if found the insert is a silent no-op, otherwise append. -/
def SemanticModel.add_table (m : SemanticModel) (t : Table) : SemanticModel :=
  if m.tables.any (fun e => e.name = t.name) then m
  else { m with tables := m.tables ++ [t] }

/-- `SemanticModel.add_relationship`: idempotent-by-name insert. -/
def SemanticModel.add_relationship (m : SemanticModel) (r : Relationship) : SemanticModel :=
  if m.relationships.any (fun e => e.name = r.name) then m
  else { m with relationships := m.relationships ++ [r] }

/-- `SemanticModel.add_metric`: idempotent-by-name insert.  The comparison
`existing_metric.name == metric.name` is on `str | None` values, and in
Python `None == None` is `True`, which the `Option String` equality mirrors. -/
def SemanticModel.add_metric (m : SemanticModel) (mt : Metric) : SemanticModel :=
  if m.metrics.any (fun e => e.name = mt.name) then m
  else { m with metrics := m.metrics ++ [mt] }

/-- `SemanticModel.get_table`: first match or `None`. -/
def SemanticModel.get_table (m : SemanticModel) (name : String) : Option Table :=
  m.tables.find? (fun t => t.name = name)

/-- `SemanticModel.get_metric`: first match or `None`. -/
def SemanticModel.get_metric (m : SemanticModel) (name : String) : Option Metric :=
  m.metrics.find? (fun t => t.name = some name)

/-- `SemanticModel.get_relationship`: first match or `None`. -/
def SemanticModel.get_relationship (m : SemanticModel) (name : String) : Option Relationship :=
  m.relationships.find? (fun t => t.name = name)

end SM

/-! ### Round-trip infrastructure -/

theorem parseListWith_map (p : Value → P α) (d : α → Value) (l : List α)
    (h : ∀ x ∈ l, p (d x) = .ok x) : parseListWith p (l.map d) = .ok l := by
  induction l with
  | nil => rfl
  | cons x xs ih =>
    simp only [List.map_cons, parseListWith, h x (by simp),
      ih (fun y hy => h y (by simp [hy]))]

theorem getStrList_go_map (k : String) (l : List String) :
    getStrList.go k (l.map Value.str) = .ok l := by
  induction l with
  | nil => rfl
  | cons x xs ih => simp only [List.map_cons, getStrList.go, ih]

theorem parseListWith_str (p : Value → P String)
    (hp : ∀ s, p (Value.str s) = .ok s) (l : List String) :
    parseListWith p (l.map Value.str) = .ok l :=
  parseListWith_map p Value.str l (fun x _ => hp x)

/-! ### External collaborators used by the constructor-time validators -/

/-- Modelled from the spec: `sqlglot.parse_one`, the "general-purpose SQL
parser" used at `VerifiedQuery` construction time, is a third-party library,
not code of this repository.  The spec fixes its verdict on the inputs it
exercises: `SELECT 1` is syntactically valid while `SELECT FROM WHERE` is
syntactically invalid (empty strings are rejected before the parser runs).
We model exactly that verdict; all other inputs are treated as parseable. -/
def sqlglot_parse_one_ok (s : String) : Bool :=
  s ≠ "SELECT FROM WHERE"

/-- Modelled from the spec: the text of the `sqlglot.errors.ParseError`
raised on invalid SQL.  Its exact wording is not pinned down by the spec and
is irrelevant to every claim; only the fact that the code prefixes it with
the literal `invalid_SQL: ` matters. -/
def sqlglot_parse_error_msg (_s : String) : String :=
  "Expected table name but got WHERE. Line 1, Col: 13."

/-- Python `str.strip()` with no arguments: remove leading and trailing
whitespace (modelled over the ASCII whitespace characters the claims use). -/
def pyStrip (s : String) : String :=
  String.mk (((s.toList.dropWhile Char.isWhitespace).reverse.dropWhile
    Char.isWhitespace).reverse)

/-- Python `str.upper()`, character-wise. -/
def pyUpper (s : String) : String :=
  String.mk (s.toList.map Char.toUpper)

/-- Modelled from the spec: `datetime.fromtimestamp` succeeds on a timestamp
iff it denotes a representable calendar time (years 1 to 9999); the bounds
here are the UTC ones.  No claim exercises `verified_at`. -/
def fromtimestamp_ok (t : Int) : Bool :=
  -62135596800 ≤ t ∧ t ≤ 253402300799

namespace SM

/-- `VerifiedQueryError`: carries the machine-checkable reason passed as the
`message` argument of the exception constructor. -/
structure VerifiedQueryError where
  reason : String
deriving Repr, DecidableEq

/-- The full exception text, chained through `VerifiedQueryError.__init__`
and `SemanticModelError.__init__`. -/
def VerifiedQueryError.fullMessage (e : VerifiedQueryError) : String :=
  "Semantic Model Error: Verified Query Error: " ++ e.reason

/-- `VerifiedQuery.validate_sql` (an `after` field validator): reject `None`
and strings that are empty after trimming with reason `sql_cannot_be_empty`;
reject strings `sqlglot.parse_one` cannot parse with reason
`invalid_SQL: <parser message>!s` (the `!s` is a literal artifact of the
source's f-string); otherwise return the string unchanged. -/
def validate_sql (v : Option String) : Except VerifiedQueryError String :=
  match v with
  | none => .error ⟨"sql_cannot_be_empty"⟩
  | some s =>
    if pyStrip s = "" then .error ⟨"sql_cannot_be_empty"⟩
    else if sqlglot_parse_one_ok s then .ok s
    else .error ⟨"invalid_SQL: " ++ sqlglot_parse_error_msg s ++ "!s"⟩

/-- `VerifiedQuery.validate_verified_at` (a `before` field validator) on a
provided integer value: accepted iff `datetime.fromtimestamp` succeeds. -/
def validate_verified_at (t : Int) : Except VerifiedQueryError Int :=
  if fromtimestamp_ok t then .ok t
  else .error ⟨"timestamp out of range"⟩

/-- Constructing a `VerifiedQuery(...)`: pydantic runs the field validators
in declaration order, so `verified_at` is checked before `sql`.  A `none`
argument stands for an omitted keyword (defaults are not validated); the
claims never pass an explicit Python `None`. -/
def VerifiedQuery.make (name question : Option String) (verified_at : Option Int)
    (verified_by : Option String) (use_as_onboarding_question : Bool)
    (sql : Option String) : Except VerifiedQueryError VerifiedQuery :=
  match verified_at with
  | some t =>
    match validate_verified_at t with
    | .error e => .error e
    | .ok t' =>
      match sql with
      | none =>
        .ok ⟨name, question, some t', verified_by, use_as_onboarding_question, none⟩
      | some s =>
        match validate_sql (some s) with
        | .error e => .error e
        | .ok s' =>
          .ok ⟨name, question, some t', verified_by, use_as_onboarding_question, some s'⟩
  | none =>
    match sql with
    | none => .ok ⟨name, question, none, verified_by, use_as_onboarding_question, none⟩
    | some s =>
      match validate_sql (some s) with
      | .error e => .error e
      | .ok s' => .ok ⟨name, question, none, verified_by, use_as_onboarding_question, some s'⟩

/-! ### Serialization: `model_dump(exclude_none=True)`

`to_yaml` renders `yaml.dump(self.model_dump(exclude_none=True))` and
`to_json` renders `json.dumps(self.model_dump(exclude_none=True))`; both
text encodings are lossless on the dumped tree and are modelled as the
identity, so both serializers produce the same `Value` document.  Fields are
emitted in declaration order; a field whose value is `None` is omitted. -/

/-- String form of an access modifier, as dumped. -/
def AccessModifier.toStr : AccessModifier → String
  | .public_access => "public_access"
  | .private_access => "private_access"

/-- Literal membership check for `access_modifier`. -/
def AccessModifier.ofStr : String → Option AccessModifier
  | "public_access" => some .public_access
  | "private_access" => some .private_access
  | _ => none

/-- String form of a join type, as dumped. -/
def JoinType.toStr : JoinType → String
  | .left_outer => "left_outer"
  | .inner => "inner"

/-- Literal membership check for `join_type`. -/
def JoinType.ofStr : String → Option JoinType
  | "left_outer" => some .left_outer
  | "inner" => some .inner
  | _ => none

/-- String form of a relationship type, as dumped. -/
def RelationshipType.toStr : RelationshipType → String
  | .one_to_one => "one_to_one"
  | .many_to_one => "many_to_one"

/-- Literal membership check for `relationship_type`. -/
def RelationshipType.ofStr : String → Option RelationshipType
  | "one_to_one" => some .one_to_one
  | "many_to_one" => some .many_to_one
  | _ => none

/-- Dump of `CortexSearchService`. -/
def CortexSearchService.dump (c : CortexSearchService) : Value :=
  .obj (optStrField "service" c.service ++ optStrField "literal_column" c.literal_column ++
    optStrField "database" c.database ++ optStrField "schema" c.schema)

/-- Dump of `Dimension`. -/
def Dimension.dump (d : Dimension) : Value :=
  .obj ([("name", .str d.name), ("synonyms", .list (d.synonyms.map .str))] ++
    optStrField "description" d.description ++ optStrField "expr" d.expr ++
    optStrField "data_type" d.data_type ++ [("unique", .bool d.unique)] ++
    optObjField "cortex_search_service" d.cortex_search_service CortexSearchService.dump ++
    [("is_enum", .bool d.is_enum)])

/-- Dump of `TimeDimensions`. -/
def TimeDimensions.dump (d : TimeDimensions) : Value :=
  .obj ([("name", .str d.name), ("synonyms", .list (d.synonyms.map .str))] ++
    optStrField "description" d.description ++ optStrField "expr" d.expr ++
    optIntField "data_type" d.data_type ++ [("unique", .bool d.unique)])

/-- Dump of `Fact`. -/
def Fact.dump (f : Fact) : Value :=
  .obj ([("name", .str f.name), ("synonyms", .list (f.synonyms.map .str))] ++
    optStrField "description" f.description ++
    [("access_modifier", .str f.access_modifier.toStr)] ++
    optStrField "expr" f.expr ++ optStrField "data_type" f.data_type)

/-- Dump of `Metric`. -/
def Metric.dump (mt : Metric) : Value :=
  .obj (optStrField "name" mt.name ++ [("synonyms", .list (mt.synonyms.map .str))] ++
    optStrField "description" mt.description ++
    [("access_modifier", .str mt.access_modifier.toStr)] ++
    optStrField "expr" mt.expr)

/-- Dump of `Filter`. -/
def Filter.dump (f : Filter) : Value :=
  .obj ([("name", .str f.name), ("synonyms", .list (f.synonyms.map .str))] ++
    optStrField "description" f.description ++
    [("comments", .list (f.comments.map .str))] ++ optStrField "expr" f.expr)

/-- Dump of `RelationshipColumn`. -/
def RelationshipColumn.dump (rc : RelationshipColumn) : Value :=
  .obj (optStrField "left_column" rc.left_column ++ optStrField "right_column" rc.right_column)

/-- Dump of `Relationship`. -/
def Relationship.dump (r : Relationship) : Value :=
  .obj [("name", .str r.name), ("left_table", .str r.left_table),
    ("right_table", .str r.right_table),
    ("relationship_columns", .list (r.relationship_columns.map RelationshipColumn.dump)),
    ("join_type", .str r.join_type.toStr),
    ("relationship_type", .str r.relationship_type.toStr)]

/-- Dump of `VerifiedQuery`. -/
def VerifiedQuery.dump (q : VerifiedQuery) : Value :=
  .obj (optStrField "name" q.name ++ optStrField "question" q.question ++
    optIntField "verified_at" q.verified_at ++ optStrField "verified_by" q.verified_by ++
    [("use_as_onboarding_question", .bool q.use_as_onboarding_question)] ++
    optStrField "sql" q.sql)

/-- Dump of `ModuleCustomInstructions`. -/
def ModuleCustomInstructions.dump (ci : ModuleCustomInstructions) : Value :=
  .obj ((match ci.sql_generation with
      | none => []
      | some xs => [("sql_generation", Value.list (xs.map .str))]) ++
    (match ci.question_categorization with
      | none => []
      | some xs => [("question_categorization", Value.list (xs.map .str))]))

/-- Dump of `Columns`. -/
def Columns.dump (c : Columns) : Value :=
  .obj [("columns", .list (c.columns.map .str))]

/-- Dump of `BaseTable`. -/
def BaseTable.dump (b : BaseTable) : Value :=
  .obj (optStrField "database" b.database ++ optStrField "schema" b.schema ++
    optStrField "table" b.table)

/-- Dump of `Table`. -/
def Table.dump (t : Table) : Value :=
  .obj ([("name", .str t.name)] ++ optStrField "description" t.description ++
    optObjField "base_table" t.base_table BaseTable.dump ++
    optObjField "primary_key" t.primary_key Columns.dump ++
    [("dimensions", .list (t.dimensions.map Dimension.dump))] ++
    optListField "time_dimensions" t.time_dimensions TimeDimensions.dump ++
    optListField "facts" t.facts Fact.dump ++
    optListField "metrics" t.metrics Metric.dump ++
    optListField "filters" t.filters Filter.dump)

/-- Dump of `SemanticModel`: the document written by `to_yaml` / `to_json`.
The table list is always emitted under the single key `tables`. -/
def SemanticModel.dump (m : SemanticModel) : Value :=
  .obj ([("name", .str m.name)] ++ optStrField "description" m.description ++
    optStrField "comments" m.comments ++
    [("tables", .list (m.tables.map Table.dump)),
     ("relationships", .list (m.relationships.map Relationship.dump)),
     ("metrics", .list (m.metrics.map Metric.dump)),
     ("verified_queries", .list (m.verified_queries.map VerifiedQuery.dump))] ++
    optObjField "custom_instructions" m.custom_instructions ModuleCustomInstructions.dump)

/-- `SemanticModel.to_yaml`: the document tree rendered to YAML text
(text rendering modelled as the identity on the tree). -/
def SemanticModel.to_yaml (m : SemanticModel) : Value :=
  m.dump

/-- `SemanticModel.to_json`: the same `model_dump(exclude_none=True)` tree
rendered to JSON text (text rendering modelled as the identity). -/
def SemanticModel.to_json (m : SemanticModel) : Value :=
  m.dump

/-! ### Deserialization: `model_validate` on a loaded document

Unknown keys are ignored (pydantic's default `extra` behavior); missing keys
take the declared defaults; `Literal` fields check membership; the
`VerifiedQuery` field validators re-run. -/

/-- `Literal` field with a default, membership checked via `ofStr`. -/
def getLiteralD (fs : List (String × Value)) (k : String) (ofStr : String → Option α)
    (d : α) : P α :=
  match fieldsGet fs k with
  | none => .ok d
  | some (.str s) =>
    match ofStr s with
    | some a => .ok a
    | none => .error ("not an allowed literal: " ++ k)
  | some _ => .error ("not a string: " ++ k)

/-- Required `list[T]` field (no default in the source). -/
def getReqListOf (fs : List (String × Value)) (k : String) (p : Value → P α) :
    P (List α) :=
  match fieldsGet fs k with
  | some (.list xs) => parseListWith p xs
  | _ => .error ("field required or not a list: " ++ k)

/-- Required `list[str] | None` field (required key, nullable value). -/
def getReqOptStrList (fs : List (String × Value)) (k : String) :
    P (Option (List String)) :=
  match fieldsGet fs k with
  | some .null => .ok none
  | some (.list xs) =>
    match parseListWith (fun v => match v with
      | .str s => .ok s
      | _ => .error ("not a string list: " ++ k)) xs with
    | .ok ss => .ok (some ss)
    | .error e => .error e
  | _ => .error ("field required: " ++ k)

/-- Parse of `CortexSearchService`. -/
def CortexSearchService.parse (v : Value) : P CortexSearchService :=
  match v with
  | .obj fs =>
    match getOptStr fs "service", getOptStr fs "literal_column",
      getOptStr fs "database", getOptStr fs "schema" with
    | .ok a, .ok b, .ok c, .ok d => .ok ⟨a, b, c, d⟩
    | _, _, _, _ => .error "CortexSearchService validation error"
  | _ => .error "CortexSearchService: not a mapping"

/-- Parse of `Dimension`. -/
def Dimension.parse (v : Value) : P Dimension :=
  match v with
  | .obj fs =>
    match getStr fs "name", getStrList fs "synonyms", getOptStr fs "description",
      getOptStr fs "expr", getOptStr fs "data_type", getBoolD fs "unique" false,
      getOptObj fs "cortex_search_service" CortexSearchService.parse,
      getBoolD fs "is_enum" false with
    | .ok name, .ok syns, .ok desc, .ok e, .ok dt, .ok u, .ok cs, .ok ie =>
      .ok ⟨name, syns, desc, e, dt, u, cs, ie⟩
    | _, _, _, _, _, _, _, _ => .error "Dimension validation error"
  | _ => .error "Dimension: not a mapping"

/-- Parse of `TimeDimensions`. -/
def TimeDimensions.parse (v : Value) : P TimeDimensions :=
  match v with
  | .obj fs =>
    match getStr fs "name", getStrList fs "synonyms", getOptStr fs "description",
      getOptStr fs "expr", getOptInt fs "data_type", getBoolD fs "unique" false with
    | .ok name, .ok syns, .ok desc, .ok e, .ok dt, .ok u =>
      .ok ⟨name, syns, desc, e, dt, u⟩
    | _, _, _, _, _, _ => .error "TimeDimensions validation error"
  | _ => .error "TimeDimensions: not a mapping"

/-- Parse of `Fact`. -/
def Fact.parse (v : Value) : P Fact :=
  match v with
  | .obj fs =>
    match getStr fs "name", getStrList fs "synonyms", getOptStr fs "description",
      getLiteralD fs "access_modifier" AccessModifier.ofStr .public_access,
      getOptStr fs "expr", getOptStr fs "data_type" with
    | .ok name, .ok syns, .ok desc, .ok am, .ok e, .ok dt =>
      .ok ⟨name, syns, desc, am, e, dt⟩
    | _, _, _, _, _, _ => .error "Fact validation error"
  | _ => .error "Fact: not a mapping"

/-- Parse of `Metric`. -/
def Metric.parse (v : Value) : P Metric :=
  match v with
  | .obj fs =>
    match getOptStr fs "name", getStrList fs "synonyms", getOptStr fs "description",
      getLiteralD fs "access_modifier" AccessModifier.ofStr .public_access,
      getOptStr fs "expr" with
    | .ok name, .ok syns, .ok desc, .ok am, .ok e => .ok ⟨name, syns, desc, am, e⟩
    | _, _, _, _, _ => .error "Metric validation error"
  | _ => .error "Metric: not a mapping"

/-- Parse of `Filter`. -/
def Filter.parse (v : Value) : P Filter :=
  match v with
  | .obj fs =>
    match getStr fs "name", getStrList fs "synonyms", getOptStr fs "description",
      getStrList fs "comments", getOptStr fs "expr" with
    | .ok name, .ok syns, .ok desc, .ok cs, .ok e => .ok ⟨name, syns, desc, cs, e⟩
    | _, _, _, _, _ => .error "Filter validation error"
  | _ => .error "Filter: not a mapping"

/-- Parse of `RelationshipColumn`. -/
def RelationshipColumn.parse (v : Value) : P RelationshipColumn :=
  match v with
  | .obj fs =>
    match getOptStr fs "left_column", getOptStr fs "right_column" with
    | .ok l, .ok r => .ok ⟨l, r⟩
    | _, _ => .error "RelationshipColumn validation error"
  | _ => .error "RelationshipColumn: not a mapping"

/-- Parse of `Relationship`. -/
def Relationship.parse (v : Value) : P Relationship :=
  match v with
  | .obj fs =>
    match getStr fs "name", getStr fs "left_table", getStr fs "right_table",
      getReqListOf fs "relationship_columns" RelationshipColumn.parse,
      getLiteralD fs "join_type" JoinType.ofStr .inner,
      getLiteralD fs "relationship_type" RelationshipType.ofStr .many_to_one with
    | .ok name, .ok lt, .ok rt, .ok rcs, .ok jt, .ok rty =>
      .ok ⟨name, lt, rt, rcs, jt, rty⟩
    | _, _, _, _, _, _ => .error "Relationship validation error"
  | _ => .error "Relationship: not a mapping"

/-- `verified_at` on input: the `before` validator accepts an `int` that
`datetime.fromtimestamp` can convert, or a digit string (converted with no
calendar check — the string branch returns `int(v)` directly); an explicit
null or any other shape raises `bad_type_for_verified_at`.  An absent key
takes the default `None` with no validation. -/
def getVerifiedAt (fs : List (String × Value)) : P (Option Int) :=
  match fieldsGet fs "verified_at" with
  | none => .ok none
  | some (.int t) =>
    if fromtimestamp_ok t then .ok (some t)
    else .error "VerifiedQueryError: fromtimestamp failed"
  | some (.str s) =>
    match s.toNat? with
    | some n => .ok (some (n : Int))
    | none => .error "VerifiedQueryError: bad_type_for_verified_at"
  | some _ => .error "VerifiedQueryError: bad_type_for_verified_at"

/-- `sql` on input: the `after` validator runs whenever the key is present
(an absent key takes the default `None` unvalidated). -/
def getSqlField (fs : List (String × Value)) : P (Option String) :=
  match fieldsGet fs "sql" with
  | none => .ok none
  | some (.str s) =>
    match validate_sql (some s) with
    | .ok s' => .ok (some s')
    | .error e => .error e.fullMessage
  | some .null =>
    match validate_sql none with
    | .ok s' => .ok (some s')
    | .error e => .error e.fullMessage
  | some _ => .error "not a string: sql"

/-- Parse of `VerifiedQuery`, re-running both field validators. -/
def VerifiedQuery.parse (v : Value) : P VerifiedQuery :=
  match v with
  | .obj fs =>
    match getOptStr fs "name", getOptStr fs "question", getVerifiedAt fs,
      getOptStr fs "verified_by", getBoolD fs "use_as_onboarding_question" false,
      getSqlField fs with
    | .ok name, .ok q, .ok va, .ok vb, .ok ob, .ok sql =>
      .ok ⟨name, q, va, vb, ob, sql⟩
    | _, _, _, _, _, _ => .error "VerifiedQuery validation error"
  | _ => .error "VerifiedQuery: not a mapping"

/-- Parse of `ModuleCustomInstructions` (both fields required). -/
def ModuleCustomInstructions.parse (v : Value) : P ModuleCustomInstructions :=
  match v with
  | .obj fs =>
    match getReqOptStrList fs "sql_generation",
      getReqOptStrList fs "question_categorization" with
    | .ok a, .ok b => .ok ⟨a, b⟩
    | _, _ => .error "ModuleCustomInstructions validation error"
  | _ => .error "ModuleCustomInstructions: not a mapping"

/-- Parse of `Columns`. -/
def Columns.parse (v : Value) : P Columns :=
  match v with
  | .obj fs =>
    match getStrList fs "columns" with
    | .ok cs => .ok ⟨cs⟩
    | _ => .error "Columns validation error"
  | _ => .error "Columns: not a mapping"

/-- Parse of `BaseTable`. -/
def BaseTable.parse (v : Value) : P BaseTable :=
  match v with
  | .obj fs =>
    match getOptStr fs "database", getOptStr fs "schema", getOptStr fs "table" with
    | .ok d, .ok s, .ok t => .ok ⟨d, s, t⟩
    | _, _, _ => .error "BaseTable validation error"
  | _ => .error "BaseTable: not a mapping"

/-- Parse of `Table`. -/
def Table.parse (v : Value) : P Table :=
  match v with
  | .obj fs =>
    match getStr fs "name", getOptStr fs "description",
      getOptObj fs "base_table" BaseTable.parse,
      getOptObj fs "primary_key" Columns.parse,
      getListOf fs "dimensions" Dimension.parse,
      getOptListOf fs "time_dimensions" TimeDimensions.parse,
      getOptListOf fs "facts" Fact.parse,
      getOptListOf fs "metrics" Metric.parse,
      getOptListOf fs "filters" Filter.parse with
    | .ok name, .ok desc, .ok bt, .ok pk, .ok ds, .ok tds, .ok fts, .ok ms, .ok fls =>
      .ok ⟨name, desc, bt, pk, ds, tds, fts, ms, fls⟩
    | _, _, _, _, _, _, _, _, _ => .error "Table validation error"
  | _ => .error "Table: not a mapping"

/-- Parse of `SemanticModel`.  The table list is read only from the key
`tables` (the model declares no alias); any other top-level key, including
`logical_tables`, is ignored as an unknown extra. -/
def SemanticModel.parse (v : Value) : P SemanticModel :=
  match v with
  | .obj fs =>
    match getStr fs "name", getOptStr fs "description", getOptStr fs "comments",
      getListOf fs "tables" Table.parse,
      getListOf fs "relationships" Relationship.parse,
      getListOf fs "metrics" Metric.parse,
      getListOf fs "verified_queries" VerifiedQuery.parse,
      getOptObj fs "custom_instructions" ModuleCustomInstructions.parse with
    | .ok name, .ok desc, .ok cm, .ok ts, .ok rs, .ok ms, .ok vqs, .ok ci =>
      .ok ⟨name, desc, cm, ts, rs, ms, vqs, ci⟩
    | _, _, _, _, _, _, _, _ => .error "SemanticModel validation error"
  | _ => .error "SemanticModel: not a mapping"

/-- `SemanticModel.from_yaml_string`: `yaml.safe_load` (modelled as the
identity on document trees) followed by `model_validate`. -/
def SemanticModel.from_yaml_string (v : Value) : P SemanticModel :=
  SemanticModel.parse v

end SM

end Semantiaz

namespace Semantiaz

namespace SM

theorem css_parse_dump (c : CortexSearchService) :
    CortexSearchService.parse c.dump = .ok c := by
  obtain ⟨a, b, c', d⟩ := c
  cases a <;> cases b <;> cases c' <;> cases d <;>
    simp [CortexSearchService.parse, CortexSearchService.dump, optStrField,
      getOptStr, fieldsGet]

theorem css_dump_not_null (c : CortexSearchService) :
    c.dump.isNull = false := rfl

theorem dimension_parse_dump (d : Dimension) :
    Dimension.parse d.dump = .ok d := by
  obtain ⟨name, syns, desc, e, dt, u, cs, ie⟩ := d
  cases desc <;> cases e <;> cases dt <;> cases cs <;>
    simp [Dimension.parse, Dimension.dump, optStrField, optObjField, getStr,
      getOptStr, getStrList, getBoolD, getOptObj, fieldsGet, getStrList_go_map,
      css_parse_dump, css_dump_not_null]

theorem accessModifier_ofStr_toStr (a : AccessModifier) : AccessModifier.ofStr a.toStr = some a := by
  cases a <;> rfl

theorem joinType_ofStr_toStr (j : JoinType) : JoinType.ofStr j.toStr = some j := by
  cases j <;> rfl

theorem relationshipType_ofStr_toStr (r : RelationshipType) : RelationshipType.ofStr r.toStr = some r := by
  cases r <;> rfl

theorem timeDimensions_parse_dump (d : TimeDimensions) :
    TimeDimensions.parse d.dump = .ok d := by
  obtain ⟨name, syns, desc, e, dt, u⟩ := d
  cases desc <;> cases e <;> cases dt <;>
    simp [TimeDimensions.parse, TimeDimensions.dump, optStrField, optIntField,
      getStr, getOptStr, getOptInt, getStrList, getBoolD, fieldsGet,
      getStrList_go_map]

theorem fact_parse_dump (f : Fact) : Fact.parse f.dump = .ok f := by
  obtain ⟨name, syns, desc, am, e, dt⟩ := f
  cases desc <;> cases e <;> cases dt <;>
    simp [Fact.parse, Fact.dump, optStrField, getStr, getOptStr, getStrList,
      getLiteralD, fieldsGet, getStrList_go_map, accessModifier_ofStr_toStr]

theorem metric_parse_dump (mt : Metric) : Metric.parse mt.dump = .ok mt := by
  obtain ⟨name, syns, desc, am, e⟩ := mt
  cases name <;> cases desc <;> cases e <;>
    simp [Metric.parse, Metric.dump, optStrField, getOptStr, getStrList,
      getLiteralD, fieldsGet, getStrList_go_map, accessModifier_ofStr_toStr]

theorem filter_parse_dump (f : Filter) : Filter.parse f.dump = .ok f := by
  obtain ⟨name, syns, desc, cm, e⟩ := f
  cases desc <;> cases e <;>
    simp [Filter.parse, Filter.dump, optStrField, getStr, getOptStr, getStrList,
      fieldsGet, getStrList_go_map]

theorem relationshipColumn_parse_dump (rc : RelationshipColumn) :
    RelationshipColumn.parse rc.dump = .ok rc := by
  obtain ⟨l, r⟩ := rc
  cases l <;> cases r <;>
    simp [RelationshipColumn.parse, RelationshipColumn.dump, optStrField,
      getOptStr, fieldsGet]

theorem relationship_parse_dump (r : Relationship) :
    Relationship.parse r.dump = .ok r := by
  obtain ⟨name, lt, rt, rcs, jt, rty⟩ := r
  simp [Relationship.parse, Relationship.dump, getStr, getReqListOf,
    getLiteralD, fieldsGet, parseListWith_map RelationshipColumn.parse
      RelationshipColumn.dump rcs (fun x _ => relationshipColumn_parse_dump x),
    joinType_ofStr_toStr, relationshipType_ofStr_toStr]

theorem validate_sql_ok (s : String) (h1 : ¬ pyStrip s = "")
    (h2 : sqlglot_parse_one_ok s = true) : validate_sql (some s) = .ok s := by
  simp [validate_sql, h1, h2]

theorem verifiedQuery_parse_dump (q : VerifiedQuery)
    (hsql : ∀ s, q.sql = some s → ¬ pyStrip s = "" ∧ sqlglot_parse_one_ok s = true)
    (hts : ∀ t, q.verified_at = some t → fromtimestamp_ok t = true) :
    VerifiedQuery.parse q.dump = .ok q := by
  obtain ⟨n, qu, va, vb, ob, sql⟩ := q
  cases va with
  | none =>
    cases sql with
    | none =>
      cases n <;> cases qu <;> cases vb <;>
        simp [VerifiedQuery.parse, VerifiedQuery.dump, optStrField, optIntField,
          getOptStr, getBoolD, getVerifiedAt, getSqlField, fieldsGet]
    | some s =>
      obtain ⟨h1, h2⟩ := hsql s rfl
      cases n <;> cases qu <;> cases vb <;>
        simp [VerifiedQuery.parse, VerifiedQuery.dump, optStrField, optIntField,
          getOptStr, getBoolD, getVerifiedAt, getSqlField, fieldsGet,
          validate_sql_ok s h1 h2]
  | some t =>
    have h3 := hts t rfl
    cases sql with
    | none =>
      cases n <;> cases qu <;> cases vb <;>
        simp [VerifiedQuery.parse, VerifiedQuery.dump, optStrField, optIntField,
          getOptStr, getBoolD, getVerifiedAt, getSqlField, fieldsGet, h3]
    | some s =>
      obtain ⟨h1, h2⟩ := hsql s rfl
      cases n <;> cases qu <;> cases vb <;>
        simp [VerifiedQuery.parse, VerifiedQuery.dump, optStrField, optIntField,
          getOptStr, getBoolD, getVerifiedAt, getSqlField, fieldsGet, h3,
          validate_sql_ok s h1 h2]

theorem customInstructions_parse_dump (a b : List String) :
    ModuleCustomInstructions.parse (ModuleCustomInstructions.dump ⟨some a, some b⟩) =
      .ok ⟨some a, some b⟩ := by
  simp [ModuleCustomInstructions.parse, ModuleCustomInstructions.dump,
    getReqOptStrList, fieldsGet, parseListWith_str]

theorem customInstructions_dump_not_null (ci : ModuleCustomInstructions) :
    ci.dump.isNull = false := rfl

theorem columns_parse_dump (c : Columns) : Columns.parse c.dump = .ok c := by
  obtain ⟨cs⟩ := c
  simp [Columns.parse, Columns.dump, getStrList, fieldsGet, getStrList_go_map]

theorem columns_dump_not_null (c : Columns) : c.dump.isNull = false := rfl

theorem baseTable_parse_dump (b : BaseTable) : BaseTable.parse b.dump = .ok b := by
  obtain ⟨d, s, t⟩ := b
  cases d <;> cases s <;> cases t <;>
    simp [BaseTable.parse, BaseTable.dump, optStrField, getOptStr, fieldsGet]

theorem baseTable_dump_not_null (b : BaseTable) : b.dump.isNull = false := rfl

theorem table_parse_dump (t : Table) : Table.parse t.dump = .ok t := by
  obtain ⟨name, desc, bt, pk, ds, tds, fts, ms, fls⟩ := t
  cases desc <;> cases bt <;> cases pk <;> cases tds <;> cases fts <;>
    cases ms <;> cases fls <;>
    simp [Table.parse, Table.dump, optStrField, optObjField, optListField,
      getStr, getOptStr, getOptObj, getListOf, getOptListOf, fieldsGet,
      baseTable_parse_dump, baseTable_dump_not_null, columns_parse_dump,
      columns_dump_not_null, parseListWith_map, dimension_parse_dump,
      timeDimensions_parse_dump, fact_parse_dump, metric_parse_dump,
      filter_parse_dump]

/-- Constructor-time validity of a `VerifiedQuery`: what the pydantic field
validators guarantee about any instance that was actually constructed. -/
def VerifiedQuery.Valid (q : VerifiedQuery) : Prop :=
  (∀ s, q.sql = some s → ¬ pyStrip s = "" ∧ sqlglot_parse_one_ok s = true) ∧
  (∀ t, q.verified_at = some t → fromtimestamp_ok t = true)

/-- Validity of a `SemanticModel` instance: its verified queries passed
their construction-time validators, and its custom-instruction block, when
present, has both (required) fields populated.  Every model produced by the
builder satisfies this: `add_verified_query` constructs the query through
the validators, and the builder never sets `custom_instructions`. -/
def SemanticModel.Valid (m : SemanticModel) : Prop :=
  (∀ q ∈ m.verified_queries, q.Valid) ∧
  (∀ ci, m.custom_instructions = some ci →
    ci.sql_generation.isSome ∧ ci.question_categorization.isSome)

theorem semanticModel_parse_dump (m : SemanticModel) (h : m.Valid) :
    SemanticModel.parse m.dump = .ok m := by
  obtain ⟨name, desc, cm, ts, rs, ms, vqs, ci⟩ := m
  obtain ⟨hvq, hci⟩ := h
  have hq : ∀ q ∈ vqs, VerifiedQuery.parse q.dump = Except.ok q := fun q hq =>
    verifiedQuery_parse_dump q (hvq q hq).1 (hvq q hq).2
  have hvql := parseListWith_map VerifiedQuery.parse VerifiedQuery.dump vqs hq
  cases ci with
  | none =>
    cases desc <;> cases cm <;>
      simp [SemanticModel.parse, SemanticModel.dump, optStrField, optObjField,
        getStr, getOptStr, getListOf, getOptObj, fieldsGet, parseListWith_map,
        table_parse_dump, relationship_parse_dump, metric_parse_dump, hvql]
  | some c =>
    obtain ⟨h1, h2⟩ := hci c rfl
    obtain ⟨sg, hsg⟩ := Option.isSome_iff_exists.mp h1
    obtain ⟨qc, hqc⟩ := Option.isSome_iff_exists.mp h2
    obtain ⟨csg, cqc⟩ := c
    cases hsg; cases hqc
    cases desc <;> cases cm <;>
      simp [SemanticModel.parse, SemanticModel.dump, optStrField, optObjField,
        getStr, getOptStr, getListOf, getOptObj, fieldsGet, parseListWith_map,
        table_parse_dump, relationship_parse_dump, metric_parse_dump, hvql,
        customInstructions_parse_dump, customInstructions_dump_not_null]

end SM

end Semantiaz

namespace Semantiaz

/-! ### Sparseness of serialized output: no null is ever emitted -/

mutual

/-- Whether a null scalar occurs anywhere in a document value. -/
def valueHasNull : Value → Bool
  | .null => true
  | .str _ => false
  | .int _ => false
  | .bool _ => false
  | .list xs => listHasNull xs
  | .obj fs => fieldsHaveNull fs

/-- Whether a null occurs in a document sequence. -/
def listHasNull : List Value → Bool
  | [] => false
  | v :: vs => valueHasNull v || listHasNull vs

/-- Whether a null occurs among object fields. -/
def fieldsHaveNull : List (String × Value) → Bool
  | [] => false
  | (_, v) :: fs => valueHasNull v || fieldsHaveNull fs

end

theorem fieldsHaveNull_append (a b : List (String × Value)) :
    fieldsHaveNull (a ++ b) = (fieldsHaveNull a || fieldsHaveNull b) := by
  induction a with
  | nil => simp [fieldsHaveNull]
  | cons f fs ih =>
    obtain ⟨k, v⟩ := f
    simp [fieldsHaveNull, ih, Bool.or_assoc]

theorem fieldsHaveNull_optStrField (k : String) (o : Option String) :
    fieldsHaveNull (optStrField k o) = false := by
  cases o <;> rfl

theorem fieldsHaveNull_optIntField (k : String) (o : Option Int) :
    fieldsHaveNull (optIntField k o) = false := by
  cases o <;> rfl

theorem listHasNull_map (d : α → Value) (l : List α)
    (h : ∀ x ∈ l, valueHasNull (d x) = false) :
    listHasNull (l.map d) = false := by
  induction l with
  | nil => rfl
  | cons x xs ih =>
    simp only [List.map_cons, listHasNull, h x (by simp),
      ih (fun y hy => h y (by simp [hy])), Bool.or_self]

theorem listHasNull_map_str (l : List String) :
    listHasNull (l.map Value.str) = false :=
  listHasNull_map Value.str l (fun _ _ => rfl)

theorem fieldsHaveNull_optObjField (k : String) (o : Option α) (d : α → Value)
    (h : ∀ x, valueHasNull (d x) = false) :
    fieldsHaveNull (optObjField k o d) = false := by
  cases o <;> simp [optObjField, fieldsHaveNull, h]

theorem fieldsHaveNull_optListField (k : String) (o : Option (List α)) (d : α → Value)
    (h : ∀ x, valueHasNull (d x) = false) :
    fieldsHaveNull (optListField k o d) = false := by
  cases o <;> simp [optListField, fieldsHaveNull, valueHasNull,
    listHasNull_map d _ (fun x _ => h x)]

namespace SM

theorem css_dump_noNull (c : CortexSearchService) :
    valueHasNull c.dump = false := by
  simp [CortexSearchService.dump, valueHasNull, fieldsHaveNull_append,
    fieldsHaveNull_optStrField]

theorem dimension_dump_noNull (d : Dimension) : valueHasNull d.dump = false := by
  simp [Dimension.dump, valueHasNull, fieldsHaveNull_append,
    fieldsHaveNull_optStrField, fieldsHaveNull, listHasNull_map_str,
    fieldsHaveNull_optObjField _ _ _ css_dump_noNull]

theorem timeDimensions_dump_noNull (d : TimeDimensions) :
    valueHasNull d.dump = false := by
  simp [TimeDimensions.dump, valueHasNull, fieldsHaveNull_append,
    fieldsHaveNull_optStrField, fieldsHaveNull_optIntField, fieldsHaveNull,
    listHasNull_map_str]

theorem fact_dump_noNull (f : Fact) : valueHasNull f.dump = false := by
  simp [Fact.dump, valueHasNull, fieldsHaveNull_append,
    fieldsHaveNull_optStrField, fieldsHaveNull, listHasNull_map_str]

theorem metric_dump_noNull (mt : Metric) : valueHasNull mt.dump = false := by
  simp [Metric.dump, valueHasNull, fieldsHaveNull_append,
    fieldsHaveNull_optStrField, fieldsHaveNull, listHasNull_map_str]

theorem filter_dump_noNull (f : Filter) : valueHasNull f.dump = false := by
  simp [Filter.dump, valueHasNull, fieldsHaveNull_append,
    fieldsHaveNull_optStrField, fieldsHaveNull, listHasNull_map_str]

theorem relationshipColumn_dump_noNull (rc : RelationshipColumn) :
    valueHasNull rc.dump = false := by
  simp [RelationshipColumn.dump, valueHasNull, fieldsHaveNull_append,
    fieldsHaveNull_optStrField]

theorem relationship_dump_noNull (r : Relationship) :
    valueHasNull r.dump = false := by
  simp [Relationship.dump, valueHasNull, fieldsHaveNull,
    listHasNull_map _ _ (fun x _ => relationshipColumn_dump_noNull x)]

theorem verifiedQuery_dump_noNull (q : VerifiedQuery) :
    valueHasNull q.dump = false := by
  simp [VerifiedQuery.dump, valueHasNull, fieldsHaveNull_append,
    fieldsHaveNull_optStrField, fieldsHaveNull_optIntField, fieldsHaveNull]

theorem customInstructions_dump_noNull (ci : ModuleCustomInstructions) :
    valueHasNull ci.dump = false := by
  obtain ⟨a, b⟩ := ci
  cases a <;> cases b <;>
    simp [ModuleCustomInstructions.dump, valueHasNull, fieldsHaveNull_append,
      fieldsHaveNull, listHasNull_map_str]

theorem columns_dump_noNull (c : Columns) : valueHasNull c.dump = false := by
  simp [Columns.dump, valueHasNull, fieldsHaveNull, listHasNull_map_str]

theorem baseTable_dump_noNull (b : BaseTable) : valueHasNull b.dump = false := by
  simp [BaseTable.dump, valueHasNull, fieldsHaveNull_append,
    fieldsHaveNull_optStrField]

theorem table_dump_noNull (t : Table) : valueHasNull t.dump = false := by
  simp [Table.dump, valueHasNull, fieldsHaveNull_append,
    fieldsHaveNull_optStrField, fieldsHaveNull,
    fieldsHaveNull_optObjField _ _ _ baseTable_dump_noNull,
    fieldsHaveNull_optObjField _ _ _ columns_dump_noNull,
    listHasNull_map _ _ (fun x _ => dimension_dump_noNull x),
    fieldsHaveNull_optListField _ _ _ timeDimensions_dump_noNull,
    fieldsHaveNull_optListField _ _ _ fact_dump_noNull,
    fieldsHaveNull_optListField _ _ _ metric_dump_noNull,
    fieldsHaveNull_optListField _ _ _ filter_dump_noNull]

/-- The serialized form of any model contains no null at all: fields with no
value are omitted, not emitted as nulls. -/
theorem semanticModel_dump_noNull (m : SemanticModel) :
    valueHasNull m.dump = false := by
  simp [SemanticModel.dump, valueHasNull, fieldsHaveNull_append,
    fieldsHaveNull_optStrField, fieldsHaveNull,
    listHasNull_map _ _ (fun x _ => table_dump_noNull x),
    listHasNull_map _ _ (fun x _ => relationship_dump_noNull x),
    listHasNull_map _ _ (fun x _ => metric_dump_noNull x),
    listHasNull_map _ _ (fun x _ => verifiedQuery_dump_noNull x),
    fieldsHaveNull_optObjField _ _ _ customInstructions_dump_noNull]

end SM

end Semantiaz

namespace Semantiaz

namespace SM

/-! ### `SemanticModelBuilder`

Methods that can fail return `Except BuilderError`.  Python's `self`-mutation
is embedded as explicit state passing.  The aliasing between the entry of
`models` and `current_model` (they are the same object in Python) is not
tracked: no claim reads `models` after a mutation, and `build` only touches
`current_model`. -/

/-- The typed errors raised by the builder and by pydantic construction:
`NoCurrentModelError`, `TableNotFoundError`, and a pydantic
`ValidationError` for a `Literal` field given a disallowed value. -/
inductive BuilderError where
  | noCurrentModel : BuilderError
  | tableNotFound : BuilderError
  | validationError : BuilderError
  | verifiedQueryError (reason : String) : BuilderError
deriving Repr, DecidableEq

/-- `SemanticModelBuilder`: tracked models plus the current-model pointer. -/
structure SemanticModelBuilder where
  models : List SemanticModel
  current_model : Option SemanticModel
deriving Repr, DecidableEq

/-- `SemanticModelBuilder()`: a fresh builder (both fields default empty). -/
def SemanticModelBuilder.new : SemanticModelBuilder :=
  { models := [], current_model := none }

/-- `create_model`: append a fresh empty model and make it current. -/
def SemanticModelBuilder.create_model (b : SemanticModelBuilder) (name : String)
    (description : Option String) : SemanticModelBuilder :=
  let m : SemanticModel :=
    { name, description, comments := none, tables := [], relationships := [],
      metrics := [], verified_queries := [], custom_instructions := none }
  { models := b.models ++ [m], current_model := some m }

/-- `add_table` on the builder: requires a current model; builds the
`BaseTable`, the primary-key `Columns` (empty when not given) and the
`Table`, and inserts through `SemanticModel.add_table`. -/
def SemanticModelBuilder.add_table (b : SemanticModelBuilder)
    (name database schema table : String) (description : Option String)
    (primary_key : Option (List String)) :
    Except BuilderError SemanticModelBuilder :=
  match b.current_model with
  | none => .error .noCurrentModel
  | some m =>
    let base_table : BaseTable := ⟨some database, some schema, some table⟩
    let pk : Columns := ⟨primary_key.getD []⟩
    let logical_table : Table :=
      { name, description, base_table := some base_table, primary_key := some pk,
        dimensions := [], time_dimensions := none, facts := none,
        metrics := none, filters := none }
    .ok { b with current_model := some (m.add_table logical_table) }

/-- Append a dimension to the first table of the given name (Python's
`next(...)` returns the first match, and the mutation hits only it). -/
def appendDimFirst (ts : List Table) (table_name : String) (d : Dimension) :
    List Table :=
  match ts with
  | [] => []
  | t :: rest =>
    if t.name = table_name then { t with dimensions := t.dimensions ++ [d] } :: rest
    else t :: appendDimFirst rest table_name d

/-- `add_dimension` on the builder: requires a current model and an existing
table of the given name; appends the dimension to that table. -/
def SemanticModelBuilder.add_dimension (b : SemanticModelBuilder)
    (table_name name : String) (data_type description expr : Option String)
    (unique : Bool) (synonyms : Option (List String)) :
    Except BuilderError SemanticModelBuilder :=
  match b.current_model with
  | none => .error .noCurrentModel
  | some m =>
    if m.tables.any (fun t => t.name = table_name) then
      let dimension : Dimension :=
        { name, data_type, description, expr, unique,
          synonyms := synonyms.getD [], cortex_search_service := none,
          is_enum := false }
      let tables := appendDimFirst m.tables table_name dimension
      .ok { b with current_model := some { m with tables } }
    else .error .tableNotFound

/-- `add_relationship` on the builder: requires a current model; constructing
the `Relationship(...)` validates the two `Literal` fields, so a
`relationship_type` outside one_to_one/many_to_one or a `join_type` outside
left_outer/inner raises a pydantic validation error.  The source's default
keyword values are `relationship_type="MANY_TO_ONE"` and
`join_type="INNER"`. -/
def SemanticModelBuilder.add_relationship (b : SemanticModelBuilder)
    (name left_table right_table left_column right_column : String)
    (relationship_type join_type : String) :
    Except BuilderError SemanticModelBuilder :=
  match b.current_model with
  | none => .error .noCurrentModel
  | some m =>
    let rel_col : RelationshipColumn := ⟨some left_column, some right_column⟩
    match RelationshipType.ofStr relationship_type, JoinType.ofStr join_type with
    | some rt, some jt =>
      let relationship : Relationship :=
        ⟨name, left_table, right_table, [rel_col], jt, rt⟩
      .ok { b with current_model := some (m.add_relationship relationship) }
    | _, _ => .error .validationError

/-- `add_metric` on the builder: requires a current model. -/
def SemanticModelBuilder.add_metric (b : SemanticModelBuilder)
    (name expr : String) (description : Option String) :
    Except BuilderError SemanticModelBuilder :=
  match b.current_model with
  | none => .error .noCurrentModel
  | some m =>
    let metric : Metric :=
      { name := some name, synonyms := [], description,
        access_modifier := .public_access, expr := some expr }
    .ok { b with current_model := some (m.add_metric metric) }

/-- `build`: return the current model and clear the current-model pointer;
raises `NoCurrentModelError` when no model is current. -/
def SemanticModelBuilder.build (b : SemanticModelBuilder) :
    Except BuilderError (SemanticModel × SemanticModelBuilder) :=
  match b.current_model with
  | none => .error .noCurrentModel
  | some m => .ok (m, { b with current_model := none })

/-- Python `f"...{x}..."` of a `str | None` value: `None` prints as the
four-letter word. -/
def pyFormatOptStr : Option String → String
  | none => "None"
  | some s => s

/-- The dict returned by `validate_current_model`. -/
structure ValidationResult where
  valid : Bool
  issues : List String
  warnings : List String
  tables : Nat
  relationships : Nat
  metrics : Nat
deriving Repr, DecidableEq

/-- The validation pass over one model (the body of
`validate_current_model` after the current-model check).  Warnings: per
table, zero dimensions, then a present-but-empty primary key.  Issues: per
relationship, unknown left then unknown right table; then per metric, a
falsy (`None` or empty) expression.  `valid` iff there are no issues. -/
def validate_model (m : SemanticModel) : ValidationResult :=
  let warnings := m.tables.flatMap (fun t =>
    (if t.dimensions = [] then ["Table " ++ t.name ++ " has no dimensions"] else []) ++
    (match t.primary_key with
     | some pk =>
       if pk.columns = [] then ["Table " ++ t.name ++ " has no primary key"] else []
     | none => []))
  let issues := (m.relationships.flatMap (fun r =>
    (if m.tables.any (fun t => t.name = r.left_table) then []
     else ["Relationship " ++ r.name ++ " references unknown left table: " ++ r.left_table]) ++
    (if m.tables.any (fun t => t.name = r.right_table) then []
     else ["Relationship " ++ r.name ++ " references unknown right table: " ++ r.right_table]))) ++
    m.metrics.flatMap (fun mt =>
      if mt.expr = none ∨ mt.expr = some "" then
        ["Metric " ++ pyFormatOptStr mt.name ++ " has no expression"]
      else [])
  { valid := issues.length = 0, issues, warnings,
    tables := m.tables.length, relationships := m.relationships.length,
    metrics := m.metrics.length }

/-- `validate_current_model`: requires a current model, then validates it. -/
def SemanticModelBuilder.validate_current_model (b : SemanticModelBuilder) :
    Except BuilderError ValidationResult :=
  match b.current_model with
  | none => .error .noCurrentModel
  | some m => .ok (validate_model m)

end SM

end Semantiaz

namespace Semantiaz

/-! ### The `semantic_model` module variant used by the RDF converter

`rdf_semantic_converter.py` imports `BaseTable, Columns, Dimension,
LogicalTable, Relationship, RelationshipColumn, SemanticModel` from a
module `semantic_model` whose root aggregate exposes the table list as
`logical_tables` and whose `Columns` constructor takes `names=...`.  That
module is not part of the sources; only its importers and tests are. -/

namespace OntSM

/-- Modelled from the spec: `Dimension` of the missing `semantic_model`
module — same shape as spec section 3 (name, optional semantic type,
`unique` flag, optional description); only the fields the converter passes
are modelled. -/
structure Dimension where
  name : String
  data_type : Option String
  unique : Bool
  description : Option String
deriving Repr, DecidableEq

/-- Modelled from the spec: `Columns` of the missing module; its field is
called `names` at the converter's call site. -/
structure Columns where
  names : List String
deriving Repr, DecidableEq

/-- Modelled from the spec: `BaseTable` of the missing module — physical
table locator with all parts optional. -/
structure BaseTable where
  database : Option String
  schema : Option String
  table : Option String
deriving Repr, DecidableEq

/-- Modelled from the spec: `LogicalTable` of the missing module. -/
structure LogicalTable where
  name : String
  description : Option String
  base_table : Option BaseTable
  primary_key : Option Columns
  dimensions : List Dimension
deriving Repr, DecidableEq

/-- Modelled from the spec: `RelationshipColumn` of the missing module. -/
structure RelationshipColumn where
  left_column : String
  right_column : String
deriving Repr, DecidableEq

/-- Modelled from the spec: `Relationship` of the missing module.  The
converter and the builder tests construct it with
`relationship_type="MANY_TO_ONE"` and it succeeds there, so this variant
stores the cardinality tag as given ("used only as metadata"). -/
structure Relationship where
  name : String
  left_table : String
  right_table : String
  relationship_columns : List RelationshipColumn
  relationship_type : String
deriving Repr, DecidableEq

/-- Modelled from the spec: the root aggregate of the missing module, with
the in-memory table list under `logical_tables`. -/
structure SemanticModel where
  name : String
  logical_tables : List LogicalTable
  relationships : List Relationship
deriving Repr, DecidableEq

/-- Modelled from the spec: duplicate-name insertion is a silent no-op
(first-write-wins), the invariant spec section 3 states for every model
variant. -/
def SemanticModel.add_table (m : SemanticModel) (t : LogicalTable) : SemanticModel :=
  if m.logical_tables.any (fun e => e.name = t.name) then m
  else { m with logical_tables := m.logical_tables ++ [t] }

/-- Modelled from the spec: idempotent-by-name relationship insert. -/
def SemanticModel.add_relationship (m : SemanticModel) (r : Relationship) : SemanticModel :=
  if m.relationships.any (fun e => e.name = r.name) then m
  else { m with relationships := m.relationships ++ [r] }

end OntSM

/-! ### `RDFSemanticConverter` (`converters/rdf_semantic_converter.py`)

The rdflib graph is embedded as a list of triples in store order; string
URIs and literal texts are both plain strings.  `Graph.parse` adds the
parsed triples of the new document to the existing graph (a triple is a
set member: re-adding an existing triple changes nothing); the parsing of
Turtle text itself is external, so loading takes the parsed triple list. -/

namespace RDF

/-- One RDF triple (subject, predicate, object). -/
structure Triple where
  s : String
  p : String
  o : String
deriving Repr, DecidableEq

def rdf_type : String := "http://www.w3.org/1999/02/22-rdf-syntax-ns#type"
def owl_Class : String := "http://www.w3.org/2002/07/owl#Class"
def owl_ObjectProperty : String := "http://www.w3.org/2002/07/owl#ObjectProperty"
def owl_DatatypeProperty : String := "http://www.w3.org/2002/07/owl#DatatypeProperty"
def rdfs_label : String := "http://www.w3.org/2000/01/rdf-schema#label"
def rdfs_comment : String := "http://www.w3.org/2000/01/rdf-schema#comment"
def rdfs_domain : String := "http://www.w3.org/2000/01/rdf-schema#domain"
def rdfs_range : String := "http://www.w3.org/2000/01/rdf-schema#range"
def rdfs_subClassOf : String := "http://www.w3.org/2000/01/rdf-schema#subClassOf"

/-- `graph.objects(s, p)`: objects of all matching triples, in store order. -/
def objectsOf (g : List Triple) (s p : String) : List String :=
  g.filterMap (fun t => if t.s = s ∧ t.p = p then some t.o else none)

/-- First-occurrence deduplication (iteration over distinct subjects). -/
def dedupFirst (l : List String) : List String :=
  l.foldl (fun acc x => if x ∈ acc then acc else acc ++ [x]) []

/-- `graph.subjects(p, o)`: subjects of all matching triples, each once. -/
def subjectsOf (g : List Triple) (p o : String) : List String :=
  dedupFirst (g.filterMap (fun t => if t.p = p ∧ t.o = o then some t.s else none))

/-- `Graph.parse` on additional content: add each new triple unless the
graph (a set of triples) already holds it. -/
def addTriples (g : List Triple) (ts : List Triple) : List Triple :=
  ts.foldl (fun acc t => if t ∈ acc then acc else acc ++ [t]) g

/-- The per-class record held in `self.classes` (the dead `properties` list
is omitted). -/
structure ClassInfo where
  uri : String
  label : Option String
  comment : Option String
  superclasses : List String
deriving Repr, DecidableEq

/-- The per-property record held in `self.properties`; `type` is the
object/datatype discriminator string. -/
structure PropInfo where
  uri : String
  label : Option String
  comment : Option String
  domain : List String
  range : List String
  type : String
deriving Repr, DecidableEq

/-- Converter state: the rdflib graph plus the two extraction maps
(`individuals` is never written and is omitted).  The maps are embedded as
association lists with Python-dict update semantics. -/
structure Conv where
  graph : List Triple
  classes : List (String × ClassInfo)
  properties : List (String × PropInfo)
deriving Repr, DecidableEq

/-- `RDFSemanticConverter()`: empty graph, empty maps. -/
def Conv.init : Conv := ⟨[], [], []⟩

/-- Python dict assignment `m[k] = v`: overwrite in place if the key
exists, else append. -/
def dictUpdate (m : List (String × α)) (k : String) (v : α) : List (String × α) :=
  if m.any (fun p => p.1 = k) then
    m.map (fun p => if p.1 = k then (k, v) else p)
  else m ++ [(k, v)]

/-- The suffix after the last occurrence of a character (the whole string
when the character is absent): Python `s.split(c)[-1]` for a one-character
separator. -/
def afterLastChar (c : Char) (s : String) : String :=
  String.mk (s.toList.foldl (fun acc x => if x = c then [] else acc ++ [x]) [])

/-- Python `str.lower()`, character-wise (the table and property names in
scope are ASCII). -/
def pyLower (s : String) : String :=
  String.mk (s.toList.map Char.toLower)

/-- `_get_local_name`: URI fragment after `#`, then last `/` segment. -/
def get_local_name (uri : String) : String :=
  afterLastChar '/' (afterLastChar '#' uri)

/-- `_get_label`: first `rdfs:label`, if any. -/
def get_label (g : List Triple) (uri : String) : Option String :=
  (objectsOf g uri rdfs_label).head?

/-- `_get_comment`: first `rdfs:comment`, if any. -/
def get_comment (g : List Triple) (uri : String) : Option String :=
  (objectsOf g uri rdfs_comment).head?

/-- `_extract_ontology_elements`: record every `owl:Class` subject, then
every `owl:ObjectProperty` subject, then every `owl:DatatypeProperty`
subject, keyed by local name.  The maps are updated in place, never
cleared. -/
def Conv.extract_ontology_elements (c : Conv) : Conv :=
  let classes := (subjectsOf c.graph rdf_type owl_Class).foldl
    (fun acc subj => dictUpdate acc (get_local_name subj)
      { uri := subj, label := get_label c.graph subj,
        comment := get_comment c.graph subj,
        superclasses := objectsOf c.graph subj rdfs_subClassOf }) c.classes
  let props1 := (subjectsOf c.graph rdf_type owl_ObjectProperty).foldl
    (fun acc subj => dictUpdate acc (get_local_name subj)
      { uri := subj, label := get_label c.graph subj,
        comment := get_comment c.graph subj,
        domain := objectsOf c.graph subj rdfs_domain,
        range := objectsOf c.graph subj rdfs_range, type := "object" }) c.properties
  let props2 := (subjectsOf c.graph rdf_type owl_DatatypeProperty).foldl
    (fun acc subj => dictUpdate acc (get_local_name subj)
      { uri := subj, label := get_label c.graph subj,
        comment := get_comment c.graph subj,
        domain := objectsOf c.graph subj rdfs_domain,
        range := objectsOf c.graph subj rdfs_range, type := "datatype" }) props1
  { graph := c.graph, classes := classes, properties := props2 }

/-- `load_rdf_string`: parse the new content into the existing graph, then
re-run extraction over the combined graph. -/
def Conv.load_rdf_string (c : Conv) (parsed : List Triple) : Conv :=
  Conv.extract_ontology_elements { c with graph := addTriples c.graph parsed }

/-- The dict returned by `get_ontology_stats`. -/
structure Stats where
  classes : Nat
  object_properties : Nat
  datatype_properties : Nat
  total_triples : Nat
deriving Repr, DecidableEq

/-- `get_ontology_stats`. -/
def Conv.get_ontology_stats (c : Conv) : Stats :=
  { classes := c.classes.length,
    object_properties := (c.properties.filter (fun p => p.2.type = "object")).length,
    datatype_properties := (c.properties.filter (fun p => p.2.type = "datatype")).length,
    total_triples := c.graph.length }

/-- `_map_datatype_to_sql`: the fixed XSD-to-semantic-type table, defaulting
to STRING. -/
def map_datatype_to_sql (datatype_uri : String) : String :=
  if datatype_uri = "http://www.w3.org/2001/XMLSchema#string" then "STRING"
  else if datatype_uri = "http://www.w3.org/2001/XMLSchema#int" then "INTEGER"
  else if datatype_uri = "http://www.w3.org/2001/XMLSchema#integer" then "INTEGER"
  else if datatype_uri = "http://www.w3.org/2001/XMLSchema#decimal" then "DECIMAL"
  else if datatype_uri = "http://www.w3.org/2001/XMLSchema#float" then "FLOAT"
  else if datatype_uri = "http://www.w3.org/2001/XMLSchema#double" then "DOUBLE"
  else if datatype_uri = "http://www.w3.org/2001/XMLSchema#boolean" then "BOOLEAN"
  else if datatype_uri = "http://www.w3.org/2001/XMLSchema#date" then "DATE"
  else if datatype_uri = "http://www.w3.org/2001/XMLSchema#dateTime" then "TIMESTAMP"
  else if datatype_uri = "http://www.w3.org/2001/XMLSchema#time" then "TIME"
  else "STRING"

/-- `_map_sql_to_datatype`: the inverse table, defaulting to xsd:string. -/
def map_sql_to_datatype (sql_type : String) : String :=
  let u := pyUpper sql_type
  if u = "STRING" then "http://www.w3.org/2001/XMLSchema#string"
  else if u = "INTEGER" then "http://www.w3.org/2001/XMLSchema#integer"
  else if u = "DECIMAL" then "http://www.w3.org/2001/XMLSchema#decimal"
  else if u = "FLOAT" then "http://www.w3.org/2001/XMLSchema#float"
  else if u = "DOUBLE" then "http://www.w3.org/2001/XMLSchema#double"
  else if u = "BOOLEAN" then "http://www.w3.org/2001/XMLSchema#boolean"
  else if u = "DATE" then "http://www.w3.org/2001/XMLSchema#date"
  else if u = "TIMESTAMP" then "http://www.w3.org/2001/XMLSchema#dateTime"
  else if u = "TIME" then "http://www.w3.org/2001/XMLSchema#time"
  else "http://www.w3.org/2001/XMLSchema#string"

/-- Python `a or b` on two `str | None` values: `a` unless it is `None` or
empty, else `b` as-is. -/
def pyOrOpt (a b : Option String) : Option String :=
  match a with
  | some s => if s = "" then b else some s
  | none => b

/-- `convert_to_semantic_model`: one table per recorded class (synthetic
`<table>_id` primary key and id dimension, plus one dimension per datatype
property whose domain is empty or includes the class), then one
relationship per object property and (domain x range) class pair, joined
on the range table's synthetic id on both sides. -/
def Conv.convert_to_semantic_model (c : Conv) (model_name database schema : String) :
    OntSM.SemanticModel :=
  let m0 : OntSM.SemanticModel := { name := model_name, logical_tables := [], relationships := [] }
  let m1 := c.classes.foldl (fun m cls =>
    let class_name := cls.1
    let info := cls.2
    let table_name := pyLower class_name
    let description := pyOrOpt info.comment info.label
    let base_table : OntSM.BaseTable := ⟨some database, some schema, some table_name⟩
    let pk : OntSM.Columns := ⟨[table_name ++ "_id"]⟩
    let id_dimension : OntSM.Dimension :=
      { name := table_name ++ "_id", data_type := some "STRING", unique := true,
        description := some ("Unique identifier for " ++ class_name) }
    let prop_dims := c.properties.filterMap (fun p =>
      if p.2.type = "datatype" then
        let domain_classes := p.2.domain.map get_local_name
        if domain_classes = [] ∨ class_name ∈ domain_classes then
          let sql_type := match p.2.range.head? with
            | some r => map_datatype_to_sql r
            | none => "STRING"
          some { name := p.1, data_type := some sql_type, unique := false,
                 description := pyOrOpt p.2.comment p.2.label : OntSM.Dimension }
        else none
      else none)
    m.add_table
      { name := table_name, description, base_table := some base_table,
        primary_key := some pk, dimensions := id_dimension :: prop_dims }) m0
  c.properties.foldl (fun m p =>
    if p.2.type = "object" then
      let domain_classes := p.2.domain.map get_local_name
      let range_classes := p.2.range.map get_local_name
      domain_classes.foldl (fun m dc =>
        range_classes.foldl (fun m rc =>
          if (c.classes.any (fun q => q.1 = dc)) ∧ (c.classes.any (fun q => q.1 = rc)) then
            m.add_relationship
              { name := pyLower dc ++ "_to_" ++ pyLower rc ++ "_" ++ p.1,
                left_table := pyLower dc, right_table := pyLower rc,
                relationship_columns := [⟨pyLower rc ++ "_id", pyLower rc ++ "_id"⟩],
                relationship_type := "MANY_TO_ONE" }
          else m) m) m
    else m) m1

end RDF

end Semantiaz

namespace Semantiaz

/-- Prefix test on character lists. -/
def charsPref : List Char → List Char → Bool
  | [], _ => true
  | _ :: _, [] => false
  | a :: as, b :: bs => a = b && charsPref as bs

/-- Infix test on character lists. -/
def charsInfix (sub : List Char) : List Char → Bool
  | [] => charsPref sub []
  | b :: bs => charsPref sub (b :: bs) || charsInfix sub bs

/-- Case-sensitive substring test (Python's `in` on strings). -/
def strContainsSub (hay sub : String) : Bool :=
  charsInfix sub.toList hay.toList

namespace SM

/-- `add_verified_query` on the builder: requires a current model; the
`VerifiedQuery(...)` construction runs the field validators and any
`VerifiedQueryError` propagates; on success the query is appended. -/
def SemanticModelBuilder.add_verified_query (b : SemanticModelBuilder)
    (name question sql : String) (verified_by : Option String)
    (onboarding : Bool) : Except BuilderError SemanticModelBuilder :=
  match b.current_model with
  | none => .error .noCurrentModel
  | some m =>
    match VerifiedQuery.make (some name) (some question) none verified_by onboarding (some sql) with
    | .error e => .error (.verifiedQueryError e.reason)
    | .ok q =>
      let updated : SemanticModel := { m with verified_queries := m.verified_queries ++ [q] }
      .ok { b with current_model := some updated }

/-! ### Every model the builder produces satisfies `SemanticModel.Valid` -/

theorem verifiedQuery_make_valid (name question : Option String)
    (verified_by : Option String) (ob : Bool) (sql : String) (q : VerifiedQuery)
    (h : VerifiedQuery.make name question none verified_by ob (some sql) = .ok q) :
    q.Valid := by
  revert h
  simp only [VerifiedQuery.make, validate_sql]
  by_cases h1 : pyStrip sql = ""
  · simp [h1]
  · by_cases h2 : sqlglot_parse_one_ok sql = true
    · simp only [if_neg h1, if_pos h2]
      intro h
      cases h
      refine ⟨fun s hs => ?_, fun t ht => by cases ht⟩
      cases hs
      exact ⟨h1, h2⟩
    · simp [h1, h2]

theorem create_model_current_valid (b : SemanticModelBuilder) (n : String)
    (d : Option String) (m : SemanticModel)
    (h : (b.create_model n d).current_model = some m) : m.Valid := by
  unfold SemanticModelBuilder.create_model at h
  simp at h
  subst h
  exact ⟨(fun q hq => by cases hq), (fun ci hci => by cases hci)⟩

theorem add_table_preserves_valid (m : SemanticModel) (t : Table) (h : m.Valid) :
    (m.add_table t).Valid := by
  unfold SemanticModel.add_table
  split <;> exact h

theorem add_relationship_preserves_valid (m : SemanticModel) (r : Relationship)
    (h : m.Valid) : (m.add_relationship r).Valid := by
  unfold SemanticModel.add_relationship
  split <;> exact h

theorem add_metric_preserves_valid (m : SemanticModel) (mt : Metric)
    (h : m.Valid) : (m.add_metric mt).Valid := by
  unfold SemanticModel.add_metric
  split <;> exact h

theorem builder_add_verified_query_valid (b b' : SemanticModelBuilder)
    (name question sql : String) (vb : Option String) (ob : Bool)
    (m m' : SemanticModel) (hm : b.current_model = some m) (hv : m.Valid)
    (h : b.add_verified_query name question sql vb ob = .ok b')
    (hm' : b'.current_model = some m') : m'.Valid := by
  unfold SemanticModelBuilder.add_verified_query at h
  rw [hm] at h
  cases hq : VerifiedQuery.make (some name) (some question) none vb ob (some sql) with
  | error e => rw [hq] at h; cases h
  | ok q =>
    rw [hq] at h
    cases h
    simp only [Option.some.injEq] at hm'
    subst hm'
    refine ⟨fun x hx => ?_, fun ci hci => hv.2 ci hci⟩
    rcases List.mem_append.mp hx with hx1 | hx2
    · exact hv.1 x hx1
    · cases List.mem_singleton.mp hx2
      exact verifiedQuery_make_valid _ _ _ _ _ _ hq

end SM

end Semantiaz

namespace Semantiaz

/-! ### Concrete inputs used by the claim statements -/

/-- Key lookup at the top level of a document. -/
def Value.getKey : Value → String → Option Value
  | .obj fs, k => fieldsGet fs k
  | _, _ => none

/-- The single dimension of the round-trip example table. -/
def roundtripDim : SM.Dimension :=
  ⟨"order_id", [], none, none, some "STRING", true, none, false⟩

/-- The round-trip example table (builder-shaped: full base table, primary
key present, no time dimensions/facts/table metrics/filters). -/
def roundtripTable : SM.Table :=
  ⟨"orders", none, some ⟨some "db", some "sales", some "orders"⟩,
   some ⟨["order_id"]⟩, [roundtripDim], none, none, none, none⟩

/-- The round-trip example relationship (builder defaults would be rejected,
so the lowercase literals are used). -/
def roundtripRel : SM.Relationship :=
  ⟨"self_join", "orders", "orders", [⟨some "order_id", some "order_id"⟩],
   .inner, .many_to_one⟩

/-- The round-trip example metric. -/
def roundtripMetric : SM.Metric :=
  ⟨some "total_orders", [], none, .public_access, some "COUNT(1)"⟩

/-- A builder-shaped model with one table, one relationship and one metric. -/
def roundtripExample : SM.SemanticModel :=
  ⟨"retail", some "demo", none, [roundtripTable], [roundtripRel],
   [roundtripMetric], [], none⟩

/-- Namespace helper for the C2 ontology URIs. -/
def c2_uri (s : String) : String := "http://example.org/ontology#" ++ s

/-- The C2 ontology: classes Person and Organization, datatype property
name (domain Person, range xsd:string), object property worksFor (domain
Person, range Organization), as parsed triples in document order. -/
def c2_ontology : List RDF.Triple :=
  [⟨c2_uri "Person", RDF.rdf_type, RDF.owl_Class⟩,
   ⟨c2_uri "Organization", RDF.rdf_type, RDF.owl_Class⟩,
   ⟨c2_uri "name", RDF.rdf_type, RDF.owl_DatatypeProperty⟩,
   ⟨c2_uri "name", RDF.rdfs_domain, c2_uri "Person"⟩,
   ⟨c2_uri "name", RDF.rdfs_range, "http://www.w3.org/2001/XMLSchema#string"⟩,
   ⟨c2_uri "worksFor", RDF.rdf_type, RDF.owl_ObjectProperty⟩,
   ⟨c2_uri "worksFor", RDF.rdfs_domain, c2_uri "Person"⟩,
   ⟨c2_uri "worksFor", RDF.rdfs_range, c2_uri "Organization"⟩]

/-- The model `convert_to_semantic_model("test")` produces from the C2
ontology (default database and schema arguments). -/
def c2_model : OntSM.SemanticModel :=
  (RDF.Conv.init.load_rdf_string c2_ontology).convert_to_semantic_model
    "test" "ontology_db" "semantic"

/-- A table used in the C3 counterexample document. -/
def c3_table : SM.Table :=
  ⟨"orders", none, none, none, [], none, none, none, none⟩

/-- A document whose table list sits under `logical_tables`. -/
def c3_doc : Value :=
  .obj [("name", .str "m"), ("logical_tables", .list [SM.Table.dump c3_table])]

/-- A one-class ontology (class `A`), parsed. -/
def c4_o1 : List RDF.Triple :=
  [⟨"http://example.org/onto#A", RDF.rdf_type, RDF.owl_Class⟩]

/-- A second one-class ontology (class `B`), parsed. -/
def c4_o2 : List RDF.Triple :=
  [⟨"http://example.org/onto#B", RDF.rdf_type, RDF.owl_Class⟩]

/-- An empty semantic model for the C7 counterexample. -/
def c7_base : SM.SemanticModel := ⟨"m", none, none, [], [], [], [], none⟩

/-- First unnamed metric. -/
def c7_m1 : SM.Metric := ⟨none, [], none, .public_access, some "SUM(a)"⟩

/-- Second, distinct unnamed metric. -/
def c7_m2 : SM.Metric := ⟨none, [], none, .public_access, some "SUM(b)"⟩

/-- A builder holding a fresh current model (for the C9 witness). -/
def c9_builder : SM.SemanticModelBuilder :=
  SM.SemanticModelBuilder.new.create_model "sales" none

/-- The fresh model c9_builder holds. -/
def c9_model : SM.SemanticModel :=
  { name := "sales", description := none, comments := none, tables := [],
    relationships := [], metrics := [], verified_queries := [],
    custom_instructions := none }

/-- General helper: a flat-map over elements that all produce nothing is
empty. -/
theorem flatMap_nil_of_all {α β : Type} (l : List α) (f : α → List β)
    (h : ∀ x ∈ l, f x = []) : l.flatMap f = [] := by
  induction l with
  | nil => rfl
  | cons x xs ih =>
    simp only [List.flatMap_cons, h x (by simp),
      ih (fun y hy => h y (by simp [hy])), List.nil_append]

/-- General helper: a fold preserves any invariant its step preserves. -/
theorem foldl_pred_mono {σ β : Type} (Q : β → Prop) (F : β → σ → β)
    (hF : ∀ a x, Q a → Q (F a x)) :
    ∀ (l : List σ) (acc : β), Q acc → Q (l.foldl F acc) := by
  intro l
  induction l with
  | nil => exact fun _ h => h
  | cons x xs ih => exact fun acc h => ih _ (hF _ _ h)

/-- Python dict assignment never removes a key. -/
theorem dictUpdate_key_mono {α : Type} (m : List (String × α)) (k : String)
    (v : α) (k' : String) (h : m.any (fun p => p.1 = k') = true) :
    (RDF.dictUpdate m k v).any (fun p => p.1 = k') = true := by
  unfold RDF.dictUpdate
  split
  · rcases List.any_eq_true.mp h with ⟨p, hp, hpk⟩
    simp only [decide_eq_true_eq] at hpk
    refine List.any_eq_true.mpr ⟨(if p.1 = k then (k, v) else p), List.mem_map_of_mem _ hp, ?_⟩
    simp only [decide_eq_true_eq]
    by_cases hk : p.1 = k
    · subst hk
      simp only [if_pos rfl]
      exact hpk
    · rw [if_neg hk]
      exact hpk
  · refine List.any_eq_true.mpr ?_
    rcases List.any_eq_true.mp h with ⟨p, hp, hpk⟩
    exact ⟨p, List.mem_append_left _ hp, hpk⟩

/-- A fold of dict updates never loses a key of the accumulator. -/
theorem any_key_foldl_dictUpdate {α σ : Type} (k : String) (f : σ → String)
    (g : σ → α) (l : List σ) (acc : List (String × α))
    (h : acc.any (fun p => p.1 = k) = true) :
    (l.foldl (fun a x => RDF.dictUpdate a (f x) (g x)) acc).any
      (fun p => p.1 = k) = true := by
  induction l generalizing acc with
  | nil => exact h
  | cons x xs ih => exact ih _ (dictUpdate_key_mono _ _ _ _ h)

end Semantiaz

namespace Semantiaz

/-! ### Claim theorems -/

/-- C1: for any model built via the builder (hence satisfying
`SemanticModel.Valid`, which the builder lemmas above establish) that holds
at least one table, one relationship and one metric, deserializing the
serialized document form — `from_yaml_string` applied to `to_yaml()`, and
likewise the JSON form produced by `to_json` — yields the identical model
(identical table/relationship/metric names, counts and every field value),
and the serialized output holds no nulls anywhere: fields with no value are
omitted rather than emitted as nulls. -/
theorem C1_document_roundtrip (m : SM.SemanticModel) (h : m.Valid)
    (ht : m.tables ≠ []) (hr : m.relationships ≠ []) (hm : m.metrics ≠ []) :
    SM.SemanticModel.from_yaml_string m.to_yaml = .ok m ∧
    SM.SemanticModel.from_yaml_string m.to_json = .ok m ∧
    valueHasNull m.to_yaml = false ∧ valueHasNull m.to_json = false :=
  ⟨SM.semanticModel_parse_dump m h, SM.semanticModel_parse_dump m h,
   SM.semanticModel_dump_noNull m, SM.semanticModel_dump_noNull m⟩

/-- C1 witness: the round-trip theorem applied to a concrete model with one
table, one relationship and one metric. -/
theorem C1_document_roundtrip_witness :
    SM.SemanticModel.from_yaml_string roundtripExample.to_yaml = .ok roundtripExample ∧
    SM.SemanticModel.from_yaml_string roundtripExample.to_json = .ok roundtripExample ∧
    valueHasNull roundtripExample.to_yaml = false ∧
    valueHasNull roundtripExample.to_json = false := by
  have hv : roundtripExample.Valid :=
    ⟨(fun q hq => by simp [roundtripExample] at hq),
     (fun ci hci => by simp [roundtripExample] at hci)⟩
  exact C1_document_roundtrip roundtripExample hv
    (by simp [roundtripExample]) (by simp [roundtripExample])
    (by simp [roundtripExample])

/-- C2: for the ontology with classes Person and Organization, datatype
property name (domain Person, range xsd:string) and object property
worksFor (domain Person, range Organization), `convert_to_semantic_model
("test")` yields exactly two tables named person and organization, with
person's dimensions exactly person_id and name and organization's exactly
organization_id, and exactly one relationship named
person_to_organization_worksFor from person to organization whose single
join-column pair is organization_id on both sides. -/
theorem C2_ontology_to_model :
    c2_model.logical_tables.map (fun t => (t.name, t.dimensions.map (fun d => d.name))) =
      [("person", ["person_id", "name"]), ("organization", ["organization_id"])] ∧
    c2_model.relationships.map (fun r =>
        (r.name, r.left_table, r.right_table,
          r.relationship_columns.map (fun rc => (rc.left_column, rc.right_column)))) =
      [("person_to_organization_worksFor", "person", "organization",
        [("organization_id", "organization_id")])] := by
  constructor <;> rfl

/-- C3 counterexample: the claim says `from_yaml_string` accepts the table
list under `logical_tables` as well, but the model declares no such alias:
parsing a document whose only table sits under `logical_tables` yields a
model whose table list is empty — the table was ignored, not promoted. -/
theorem C3_counterexample :
    SM.SemanticModel.from_yaml_string c3_doc =
      .ok ⟨"m", none, none, [], [], [], [], none⟩ ∧
    ¬ (∃ mm, SM.SemanticModel.from_yaml_string c3_doc = .ok mm ∧
        mm.tables = [c3_table]) := by
  constructor
  · rfl
  · rintro ⟨mm, hmm, ht⟩
    rw [show SM.SemanticModel.from_yaml_string c3_doc =
        .ok (⟨"m", none, none, [], [], [], [], none⟩ : SM.SemanticModel) from rfl] at hmm
    cases hmm
    cases ht

/-- C3 (amended): the serializer always emits the table list under the
single canonical key `tables` and never emits `logical_tables`; the
deserializer reads the table list only from the key `tables` — a top-level
`logical_tables` key is ignored as an unknown extra, leaving the parsed
model's table list at its empty default. -/
theorem C3_tables_key_canonical :
    (∀ m : SM.SemanticModel,
      m.to_yaml.getKey "tables" = some (.list (m.tables.map SM.Table.dump)) ∧
      m.to_yaml.getKey "logical_tables" = none) ∧
    (∀ (n : String) (ts : List SM.Table),
      SM.SemanticModel.from_yaml_string
          (.obj [("name", .str n), ("tables", .list (ts.map SM.Table.dump))]) =
        .ok ⟨n, none, none, ts, [], [], [], none⟩ ∧
      SM.SemanticModel.from_yaml_string
          (.obj [("name", .str n), ("logical_tables", .list (ts.map SM.Table.dump))]) =
        .ok ⟨n, none, none, [], [], [], [], none⟩) := by
  constructor
  · intro m
    obtain ⟨name, desc, cm, ts, rs, ms, vqs, ci⟩ := m
    cases desc <;> cases cm <;> cases ci <;>
      simp [SM.SemanticModel.to_yaml, SM.SemanticModel.dump, Value.getKey,
        fieldsGet, optStrField, optObjField]
  · intro n ts
    have hts := parseListWith_map SM.Table.parse SM.Table.dump ts
      (fun t _ => SM.table_parse_dump t)
    constructor <;>
      simp [SM.SemanticModel.from_yaml_string, SM.SemanticModel.parse, getStr,
        getOptStr, getListOf, getOptObj, fieldsGet, hts]

/-- C4 counterexample: loading ontology o1 (class A) and then o2 (class B)
into one converter leaves both classes recorded — the maps produced are the
union, not those extracted from o2 alone, so a load does not replace prior
state. -/
theorem C4_counterexample :
    ((RDF.Conv.init.load_rdf_string c4_o1).load_rdf_string c4_o2).classes.map
        Prod.fst = ["A", "B"] ∧
    (RDF.Conv.init.load_rdf_string c4_o2).classes.map Prod.fst = ["B"] ∧
    ((RDF.Conv.init.load_rdf_string c4_o1).load_rdf_string c4_o2).get_ontology_stats.classes = 2 ∧
    (RDF.Conv.init.load_rdf_string c4_o2).get_ontology_stats.classes = 1 ∧
    ((RDF.Conv.init.load_rdf_string c4_o1).load_rdf_string c4_o2).classes ≠
      (RDF.Conv.init.load_rdf_string c4_o2).classes := by
  refine ⟨rfl, rfl, rfl, rfl, fun h => ?_⟩
  have hlen : (2 : Nat) = 1 := congrArg List.length h
  cases hlen

/-- C4 (amended): each `load_rdf_string` call accumulates instead of
replacing — the parsed triples are added to the existing graph, and the
`classes` and `properties` maps keep every previously recorded key (the
re-extraction only adds or overwrites entries). -/
theorem C4_load_accumulates :
    (∀ (c : RDF.Conv) (ts : List RDF.Triple),
      (c.load_rdf_string ts).graph = RDF.addTriples c.graph ts) ∧
    (∀ (c : RDF.Conv) (ts : List RDF.Triple) (k : String),
      c.classes.any (fun p => p.1 = k) = true →
      (c.load_rdf_string ts).classes.any (fun p => p.1 = k) = true) ∧
    (∀ (c : RDF.Conv) (ts : List RDF.Triple) (k : String),
      c.properties.any (fun p => p.1 = k) = true →
      (c.load_rdf_string ts).properties.any (fun p => p.1 = k) = true) := by
  refine ⟨fun c ts => rfl, fun c ts k h => ?_, fun c ts k h => ?_⟩
  · unfold RDF.Conv.load_rdf_string RDF.Conv.extract_ontology_elements
    exact any_key_foldl_dictUpdate k _ _ _ _ h
  · unfold RDF.Conv.load_rdf_string RDF.Conv.extract_ontology_elements
    exact any_key_foldl_dictUpdate k _ _ _ _
      (any_key_foldl_dictUpdate k _ _ _ _ h)

/-- C4 witness: the accumulation theorem applied to the concrete two-load
scenario — class A recorded by the first load survives the second. -/
theorem C4_load_accumulates_witness :
    (RDF.Conv.init.load_rdf_string c4_o1).classes.any (fun p => p.1 = "A") = true ∧
    ((RDF.Conv.init.load_rdf_string c4_o1).load_rdf_string c4_o2).classes.any
      (fun p => p.1 = "A") = true :=
  ⟨by decide, C4_load_accumulates.2.1 (RDF.Conv.init.load_rdf_string c4_o1)
    c4_o2 "A" (by decide)⟩

end Semantiaz

namespace Semantiaz

/-- C5 counterexample: constructing a `VerifiedQuery` with the syntactically
invalid `SELECT FROM WHERE` raises a `VerifiedQueryError` whose reason (and
full message) does not contain the lowercase `invalid_sql` the claim names —
the code formats the reason as `invalid_SQL: <parser message>!s`. -/
theorem C5_counterexample :
    ∃ r, SM.VerifiedQuery.make none none none none false (some "SELECT FROM WHERE") =
        .error ⟨r⟩ ∧ strContainsSub r "invalid_sql" = false ∧
      strContainsSub (SM.VerifiedQueryError.fullMessage ⟨r⟩) "invalid_sql" = false :=
  ⟨"invalid_SQL: Expected table name but got WHERE. Line 1, Col: 13.!s",
   rfl, by decide, by decide⟩

/-- C5 (amended): `sql=""` and `sql="   "` raise with reason
`sql_cannot_be_empty`; the syntactically invalid `SELECT FROM WHERE` raises
a `VerifiedQueryError` whose reason contains `invalid_SQL` (capital SQL —
the code's literal, not the claim's lowercase `invalid_sql`); `SELECT 1`
succeeds. -/
theorem C5_verified_query_sql_gating :
    SM.VerifiedQuery.make none none none none false (some "") =
      .error ⟨"sql_cannot_be_empty"⟩ ∧
    SM.VerifiedQuery.make none none none none false (some "   ") =
      .error ⟨"sql_cannot_be_empty"⟩ ∧
    (∃ r, SM.VerifiedQuery.make none none none none false (some "SELECT FROM WHERE") =
        .error ⟨r⟩ ∧ strContainsSub r "invalid_SQL" = true) ∧
    SM.VerifiedQuery.make none none none none false (some "SELECT 1") =
      .ok ⟨none, none, none, none, false, some "SELECT 1"⟩ :=
  ⟨rfl, rfl,
   ⟨"invalid_SQL: Expected table name but got WHERE. Line 1, Col: 13.!s",
    rfl, by decide⟩, rfl⟩

/-- C6: inserting two tables of the same name leaves the model exactly as it
was after the first insert: the duplicate insert is a silent no-op, so the
table list length is unchanged and the first-inserted table's content is
retained. -/
theorem C6_add_table_idempotent (m : SM.SemanticModel) (t1 t2 : SM.Table)
    (h : t1.name = t2.name) :
    (m.add_table t1).add_table t2 = m.add_table t1 ∧
    ((m.add_table t1).add_table t2).tables.length = (m.add_table t1).tables.length := by
  have heq : (m.add_table t1).add_table t2 = m.add_table t1 := by
    by_cases hany : m.tables.any (fun e => e.name = t1.name) = true
    · have h1 : m.add_table t1 = m := by simp [SM.SemanticModel.add_table, hany]
      rw [h1]
      have hany2 : m.tables.any (fun e => e.name = t2.name) = true := by
        rw [← h]; exact hany
      simp [SM.SemanticModel.add_table, hany2]
    · have h1 : m.add_table t1 = { m with tables := m.tables ++ [t1] } := by
        simp only [SM.SemanticModel.add_table, hany, if_false, Bool.false_eq_true]
      rw [h1]
      have hany2 : (m.tables ++ [t1]).any (fun e => e.name = t2.name) = true := by
        rw [← h]
        simp [List.any_append]
      simp [SM.SemanticModel.add_table, hany2]
  exact ⟨heq, by rw [heq]⟩

/-- C6 witness: two concrete tables sharing a name, different content. -/
theorem C6_add_table_idempotent_witness :
    ((c7_base.add_table c3_table).add_table
        ⟨"orders", some "other", none, none, [], none, none, none, none⟩) =
      c7_base.add_table c3_table ∧
    (((c7_base.add_table c3_table).add_table
        ⟨"orders", some "other", none, none, [], none, none, none, none⟩)).tables.length =
      (c7_base.add_table c3_table).tables.length :=
  C6_add_table_idempotent c7_base c3_table
    ⟨"orders", some "other", none, none, [], none, none, none, none⟩ rfl

/-- C7 counterexample: adding a second (distinct) unnamed metric to a model
already holding an unnamed metric does not append it — the metrics list
stays at length one, holding the first metric, because the dedup check
compares `None == None` as equal rather than being skipped. -/
theorem C7_counterexample :
    ((c7_base.add_metric c7_m1).add_metric c7_m2).metrics = [c7_m1] ∧
    ((c7_base.add_metric c7_m1).add_metric c7_m2).metrics.length ≠ 2 ∧
    c7_m2 ≠ c7_m1 := by
  refine ⟨rfl, by decide, by decide⟩

/-- C7 (amended): `add_metric` dedups by name and the check applies to
absent names too (`None == None` is `True` in Python), so adding a second
unnamed metric to a model already holding an unnamed metric is a silent
no-op: the metrics list does not grow and the first unnamed metric is
retained. -/
theorem C7_add_metric_unnamed_dedup (m : SM.SemanticModel) (m1 m2 : SM.Metric)
    (h1 : m1.name = none) (h2 : m2.name = none) :
    (m.add_metric m1).add_metric m2 = m.add_metric m1 ∧
    ((m.add_metric m1).add_metric m2).metrics.length = (m.add_metric m1).metrics.length := by
  have h : m1.name = m2.name := by rw [h1, h2]
  have heq : (m.add_metric m1).add_metric m2 = m.add_metric m1 := by
    by_cases hany : m.metrics.any (fun e => e.name = m1.name) = true
    · have ha : m.add_metric m1 = m := by simp [SM.SemanticModel.add_metric, hany]
      rw [ha]
      have hany2 : m.metrics.any (fun e => e.name = m2.name) = true := by
        rw [← h]; exact hany
      simp [SM.SemanticModel.add_metric, hany2]
    · have ha : m.add_metric m1 = { m with metrics := m.metrics ++ [m1] } := by
        simp only [SM.SemanticModel.add_metric, hany, if_false, Bool.false_eq_true]
      rw [ha]
      have hany2 : (m.metrics ++ [m1]).any (fun e => e.name = m2.name) = true := by
        rw [← h]
        simp [List.any_append]
      simp [SM.SemanticModel.add_metric, hany2]
  exact ⟨heq, by rw [heq]⟩

/-- C7 witness: the amended no-op applied to the two concrete unnamed
metrics. -/
theorem C7_add_metric_unnamed_dedup_witness :
    (c7_base.add_metric c7_m1).add_metric c7_m2 = c7_base.add_metric c7_m1 ∧
    ((c7_base.add_metric c7_m1).add_metric c7_m2).metrics.length =
      (c7_base.add_metric c7_m1).metrics.length :=
  C7_add_metric_unnamed_dedup c7_base c7_m1 c7_m2 rfl rfl

end Semantiaz

namespace Semantiaz

/-- The table of the C8 witness model: one dimension, non-empty primary key. -/
def c8_table : SM.Table :=
  ⟨"orders", none, none, some ⟨["order_id"]⟩,
   [⟨"order_id", [], none, none, some "STRING", true, none, false⟩],
   none, none, none, none⟩

/-- A relationship whose right table name matches no table. -/
def c8_badrel : SM.Relationship :=
  ⟨"r1", "orders", "ghost", [⟨some "order_id", some "order_id"⟩], .inner, .many_to_one⟩

/-- The C8 witness model: one table, one dangling relationship, no metrics. -/
def c8_model : SM.SemanticModel :=
  ⟨"m", none, none, [c8_table], [c8_badrel], [], [], none⟩

/-- A builder whose current model is the C8 witness model. -/
def c8_builder : SM.SemanticModelBuilder := ⟨[], some c8_model⟩

/-- C8: the validation pass satisfies the spec properties.  First, a model
whose single relationship has exactly one endpoint that is not a known
table name yields exactly one issue string, the one naming that relationship
and the unknown side.  Second, a table with zero dimensions and a present-
but-empty primary key draws one warning for each condition.  Third, a model
in which every table has at least one dimension and a present, non-empty
primary key yields zero warnings.  Fourth, the `valid` flag is true exactly
when the issues list is empty. -/
theorem C8_validator :
    (∀ (b : SM.SemanticModelBuilder) (m : SM.SemanticModel) (r : SM.Relationship),
      b.current_model = some m → m.relationships = [r] →
      (∀ mt ∈ m.metrics, mt.expr ≠ none ∧ mt.expr ≠ some "") →
      m.tables.any (fun t => t.name = r.left_table) ≠
        m.tables.any (fun t => t.name = r.right_table) →
      b.validate_current_model = .ok (SM.validate_model m) ∧
      (SM.validate_model m).issues =
        [if m.tables.any (fun t => t.name = r.left_table) = true then
            "Relationship " ++ r.name ++ " references unknown right table: " ++ r.right_table
          else
            "Relationship " ++ r.name ++ " references unknown left table: " ++ r.left_table]) ∧
    (∀ (m : SM.SemanticModel) (t : SM.Table) (pk : SM.Columns),
      m.tables = [t] → t.dimensions = [] → t.primary_key = some pk →
      pk.columns = [] →
      (SM.validate_model m).warnings =
        ["Table " ++ t.name ++ " has no dimensions",
         "Table " ++ t.name ++ " has no primary key"]) ∧
    (∀ (b : SM.SemanticModelBuilder) (m : SM.SemanticModel),
      b.current_model = some m →
      (∀ t ∈ m.tables, t.dimensions ≠ [] ∧
        ∃ pk, t.primary_key = some pk ∧ pk.columns ≠ []) →
      b.validate_current_model = .ok (SM.validate_model m) ∧
      (SM.validate_model m).warnings = []) ∧
    (∀ m : SM.SemanticModel,
      (SM.validate_model m).valid = true ↔ (SM.validate_model m).issues = []) := by
  refine ⟨?_, ?_, ?_, ?_⟩
  · intro b m r hb hrel hmt hxor
    have hvc : b.validate_current_model = .ok (SM.validate_model m) := by
      simp [SM.SemanticModelBuilder.validate_current_model, hb]
    refine ⟨hvc, ?_⟩
    have hmetrics : m.metrics.flatMap (fun mt =>
        if mt.expr = none ∨ mt.expr = some "" then
          ["Metric " ++ SM.pyFormatOptStr mt.name ++ " has no expression"]
        else []) = [] := by
      refine flatMap_nil_of_all _ _ (fun mt hmem => ?_)
      obtain ⟨e1, e2⟩ := hmt mt hmem
      simp [e1, e2]
    cases hl : m.tables.any (fun t => t.name = r.left_table) with
    | true =>
      have hr2 : m.tables.any (fun t => t.name = r.right_table) = false := by
        cases hr3 : m.tables.any (fun t => t.name = r.right_table) with
        | true => exact absurd (hl.trans hr3.symm) hxor
        | false => rfl
      have hlp : ∃ x ∈ m.tables, x.name = r.left_table := by simpa using hl
      have hrp : ¬ ∃ x ∈ m.tables, x.name = r.right_table := by simpa using hr2
      simp [SM.validate_model, hrel, hmetrics, hl, hlp, hrp]
    | false =>
      have hr2 : m.tables.any (fun t => t.name = r.right_table) = true := by
        cases hr3 : m.tables.any (fun t => t.name = r.right_table) with
        | true => rfl
        | false => exact absurd (hl.trans hr3.symm) hxor
      have hlp : ¬ ∃ x ∈ m.tables, x.name = r.left_table := by simpa using hl
      have hrp : ∃ x ∈ m.tables, x.name = r.right_table := by simpa using hr2
      simp [SM.validate_model, hrel, hmetrics, hl, hlp, hrp]
  · intro m t pk ht hd hpk hcols
    simp [SM.validate_model, ht, hd, hpk, hcols]
  · intro b m hb htab
    have hvc : b.validate_current_model = .ok (SM.validate_model m) := by
      simp [SM.SemanticModelBuilder.validate_current_model, hb]
    refine ⟨hvc, ?_⟩
    have hwarn : m.tables.flatMap (fun t =>
        (if t.dimensions = [] then ["Table " ++ t.name ++ " has no dimensions"] else []) ++
        (match t.primary_key with
         | some pk =>
           if pk.columns = [] then ["Table " ++ t.name ++ " has no primary key"] else []
         | none => [])) = [] := by
      refine flatMap_nil_of_all _ _ (fun t hmem => ?_)
      obtain ⟨hd, pk, hpk, hcols⟩ := htab t hmem
      simp [hd, hpk, hcols]
    simp [SM.validate_model, hwarn]
  · intro m
    constructor
    · intro hv
      have hv' : decide ((SM.validate_model m).issues.length = 0) = true := hv
      exact List.length_eq_zero.mp (of_decide_eq_true hv')
    · intro hi
      show decide ((SM.validate_model m).issues.length = 0) = true
      rw [hi]
      rfl

/-- C8 witness: the first part applied to the concrete dangling-relationship
model; its single issue names relationship r1 and the unknown right table. -/
theorem C8_validator_witness :
    c8_builder.validate_current_model = .ok (SM.validate_model c8_model) ∧
    (SM.validate_model c8_model).issues =
      [if c8_model.tables.any (fun t => t.name = c8_badrel.left_table) = true then
          "Relationship " ++ c8_badrel.name ++ " references unknown right table: " ++
            c8_badrel.right_table
        else
          "Relationship " ++ c8_badrel.name ++ " references unknown left table: " ++
            c8_badrel.left_table] :=
  C8_validator.1 c8_builder c8_model c8_badrel rfl rfl
    (by intro mt hmt; simp [c8_model] at hmt) (by decide)

/-- C9: on a builder with no current model, every mutating operation other
than `create_model` / `load_from_yaml` raises `NoCurrentModelError` —
add_table, add_dimension, add_relationship, add_metric, add_verified_query,
build and validate_current_model all do; in particular `add_table` on a
fresh builder errors.  And for any builder with a current model, `build`
returns that model and clears the pointer, so a second `build` with no model
re-created raises `NoCurrentModelError`. -/
theorem C9_builder_state_machine :
    (∀ (n d s t : String) (desc : Option String) (pk : Option (List String)),
      SM.SemanticModelBuilder.new.add_table n d s t desc pk =
        .error .noCurrentModel) ∧
    (∀ (b : SM.SemanticModelBuilder), b.current_model = none →
      (∀ (n d s t : String) (desc : Option String) (pk : Option (List String)),
        b.add_table n d s t desc pk = .error .noCurrentModel) ∧
      (∀ (tn n : String) (dt ds ex : Option String) (u : Bool) (sy : Option (List String)),
        b.add_dimension tn n dt ds ex u sy = .error .noCurrentModel) ∧
      (∀ (n lt rt lc rc rty jt : String),
        b.add_relationship n lt rt lc rc rty jt = .error .noCurrentModel) ∧
      (∀ (n ex : String) (ds : Option String),
        b.add_metric n ex ds = .error .noCurrentModel) ∧
      (∀ (n q sql : String) (vb : Option String) (ob : Bool),
        b.add_verified_query n q sql vb ob = .error .noCurrentModel) ∧
      b.build = .error .noCurrentModel ∧
      b.validate_current_model = .error .noCurrentModel) ∧
    (∀ (b : SM.SemanticModelBuilder) (m : SM.SemanticModel),
      b.current_model = some m →
      ∃ b', b.build = .ok (m, b') ∧ b'.current_model = none ∧
        b'.build = .error .noCurrentModel) := by
  refine ⟨fun n d s t desc pk => rfl, fun b hb => ?_, fun b m hm => ?_⟩
  · refine ⟨fun n d s t desc pk => ?_, fun tn n dt ds ex u sy => ?_,
      fun n lt rt lc rc rty jt => ?_, fun n ex ds => ?_, fun n q sql vb ob => ?_,
      ?_, ?_⟩ <;>
      simp [SM.SemanticModelBuilder.add_table, SM.SemanticModelBuilder.add_dimension,
        SM.SemanticModelBuilder.add_relationship, SM.SemanticModelBuilder.add_metric,
        SM.SemanticModelBuilder.add_verified_query, SM.SemanticModelBuilder.build,
        SM.SemanticModelBuilder.validate_current_model, hb]
  · refine ⟨{ b with current_model := none }, ?_, rfl, rfl⟩
    simp [SM.SemanticModelBuilder.build, hm]

/-- C9 witness: the fresh-builder errors and the build-twice error on a
concrete builder. -/
theorem C9_builder_state_machine_witness :
    SM.SemanticModelBuilder.new.add_table "orders" "db" "sales" "orders" none none =
      .error .noCurrentModel ∧
    SM.SemanticModelBuilder.new.add_metric "m" "COUNT(1)" none =
      .error .noCurrentModel ∧
    (∃ b', c9_builder.build = .ok (c9_model, b') ∧ b'.current_model = none ∧
      b'.build = .error .noCurrentModel) :=
  ⟨C9_builder_state_machine.1 "orders" "db" "sales" "orders" none none,
   (C9_builder_state_machine.2.1 SM.SemanticModelBuilder.new rfl).2.2.2.1
     "m" "COUNT(1)" none,
   C9_builder_state_machine.2.2 c9_builder c9_model rfl⟩

/-- C10: with a current model present, `add_relationship` invoked with the
source's default keyword values `relationship_type="MANY_TO_ONE"` and
`join_type="INNER"` raises a pydantic validation error for every choice of
name/table/column arguments, because `Relationship` only admits the
lowercase literals one_to_one/many_to_one and left_outer/inner. -/
theorem C10_add_relationship_default_literals (b : SM.SemanticModelBuilder)
    (m : SM.SemanticModel) (h : b.current_model = some m)
    (name left_table right_table left_column right_column : String) :
    b.add_relationship name left_table right_table left_column right_column
      "MANY_TO_ONE" "INNER" = .error .validationError := by
  simp [SM.SemanticModelBuilder.add_relationship, h, SM.RelationshipType.ofStr,
    SM.JoinType.ofStr]

/-- C10 witness: the default-literal failure on a concrete builder. -/
theorem C10_add_relationship_default_literals_witness :
    c9_builder.add_relationship "works_for" "person" "organization"
      "organization_id" "organization_id" "MANY_TO_ONE" "INNER" =
      .error .validationError :=
  C10_add_relationship_default_literals c9_builder c9_model rfl
    "works_for" "person" "organization" "organization_id" "organization_id"

end Semantiaz
